import Mathlib

/-!
# VTA tsim driver (`src/tsim/tsim_driver.cc`)

A shallow embedding of the three classes of the driver, `Profiler`,
`DPILoader` and `Device`, followed by theorems about the register protocol
and the counter bookkeeping.

Machine integers are mathematical integers with explicit reduction modulo
`2^32`: `uint32_t` values are naturals below `2^32`, `int` values are integers
in `[-2^31, 2^31)`.
-/

namespace vta
namespace tsim

/-! ## Machine arithmetic -/

/-- Conversion of an `int` to `unsigned int` (the usual arithmetic conversion
applied to the `int` operand of a mixed `int`/`uint32_t` expression). -/
def toUInt32 (x : Int) : Nat := (x % 4294967296).toNat

/-- Conversion of an `unsigned int` back to `int` (two's complement, what the
assignment half of `+=` does on an `int` lvalue). -/
def toInt32 (u : Nat) : Int :=
  if u % 4294967296 < 2147483648 then ((u % 4294967296 : Nat) : Int)
  else ((u % 4294967296 : Nat) : Int) - 4294967296

/-! ## Profiler -/

/-- The counter bank: `int* counters_` of `num_counters_ = 15` entries. -/
structure Profiler where
  counters_ : Fin 15 → Int

namespace Profiler

/-- Number of event counters, `num_counters_{15}`. -/
def num_counters_ : Nat := 15

/-- Read of `counters_[idx]`; an index outside the array is undefined
behaviour in the source and reads as `0` here. -/
def get (p : Profiler) (idx : Nat) : Int :=
  if h : idx < 15 then p.counters_ ⟨idx, h⟩ else 0

/-- Store `counters_[idx] = v`; an index outside the array is undefined
behaviour in the source and leaves the bank unchanged here. -/
def put (p : Profiler) (idx : Nat) (v : Int) : Profiler :=
  if h : idx < 15 then ⟨Function.update p.counters_ ⟨idx, h⟩ v⟩ else p

/-- Source `void Update(uint32_t idx, uint32_t value) { counters_[idx] += value; }`:
the `int` counter is converted to unsigned, added to `value` modulo `2^32`
and the sum converted back to `int`. -/
def Update (p : Profiler) (idx value : Nat) : Profiler :=
  p.put idx (toInt32 ((toUInt32 (p.get idx) + value) % 4294967296))

/-- Source `void Clear(uint32_t idx) { counters_[idx] = 0; }` -/
def Clear (p : Profiler) (idx : Nat) : Profiler :=
  p.put idx 0

/-- The loop of `ClearAll`, `for (i = 0; i < num_counters_; i++)`, with `n`
iterations left to run from index `i`. -/
def clearFrom : Nat → Nat → Profiler → Profiler
  | 0, _, p => p
  | n + 1, i, p => clearFrom n (i + 1) (p.put i 0)

/-- Source `void ClearAll()`: every counter of the bank is set to `0`. -/
def ClearAll (p : Profiler) : Profiler :=
  clearFrom (num_counters_ - 0) 0 p

/-- The product `counters_[i] * bytes_per_pulse` of `AsJSON`: the `int`
counter is converted to `uint32_t` and multiplied modulo `2^32`. -/
def scaled (p : Profiler) (idx : Nat) : Int :=
  (((toUInt32 (p.get idx) * 8) % 4294967296 : Nat) : Int)

/-- The name/number pairs streamed by `AsJSON`, in the order of the source.
The five `*_nbytes` numbers are unsigned products, the other ten are the
`int` counters themselves. -/
def AsJSON_fields (p : Profiler) : List (String × Int) :=
  [ ("cycle_counter", p.get 0),
    ("inp_load_nbytes", p.scaled 3),
    ("wgt_load_nbytes", p.scaled 4),
    ("acc_load_nbytes", p.scaled 2),
    ("uop_load_nbytes", p.scaled 5),
    ("out_store_nbytes", p.scaled 6),
    ("gemm_counter", p.get 8),
    ("alu_counter", p.get 7),
    ("acc_wr_counter", p.get 1),
    ("idle_ld_cycles", p.get 9),
    ("idle_st_cycles", p.get 10),
    ("idle_cp_cycles", p.get 11),
    ("stall_ld_cycles", p.get 12),
    ("stall_st_cycles", p.get 13),
    ("stall_cp_cycles", p.get 14) ]

/-- One line of the export, ` "name":number`. -/
def renderField (f : String × Int) : String :=
  " \"" ++ f.1 ++ "\":" ++ toString f.2

/-- Source `std::string AsJSON()`: the text written to the stream. -/
def AsJSON (p : Profiler) : String :=
  "\x7b\n" ++ String.intercalate ",\n" ((AsJSON_fields p).map renderField) ++ "\n\x7d\n"

/-- The number exported under a field name, if the export has that field. -/
def exported (p : Profiler) (name : String) : Option Int :=
  (AsJSON_fields p).lookup name

/-- The bank built by the constructor: `new int[15]` followed by `ClearAll`. -/
def new : Profiler := ClearAll ⟨fun _ => 0⟩

end Profiler

/-! ## The simulation backend -/

/-- The interface of the simulation handle `DPIModuleNode` (declared in
`vta/dpi/module.h`, outside this file), as a state machine on a backend state
`σ`: the four simulation-control calls, `WriteReg(addr, value)` and
`ReadReg(addr)`, which returns a value and the next state. -/
structure DPIModuleNode (σ : Type) where
  SimLaunch : σ → σ
  SimWait : σ → σ
  SimResume : σ → σ
  SimFinish : σ → σ
  WriteReg : Nat → Nat → σ → σ
  ReadReg : Nat → σ → Nat × σ

/-- A call made on the simulation handle; `WriteReg addr value` carries the
arguments of the call, `ReadReg addr value` the address and the `uint32_t`
the call returned. -/
inductive Op where
  | SimLaunch : Op
  | SimWait : Op
  | SimResume : Op
  | SimFinish : Op
  | WriteReg : Nat → Nat → Op
  | ReadReg : Nat → Nat → Op
  deriving DecidableEq, Repr

/-- Everything the driver acts on: the backend state behind `dpi_`, the calls
made on `dpi_` so far (oldest first), the global `Profiler`, and the calls
`Update(idx, value)` made on it so far (oldest first). -/
structure World (σ : Type) where
  sim : σ
  trace : List Op
  prof : Profiler
  updates : List (Nat × Nat)

variable {σ : Type}

/-- The call `dpi_->SimLaunch()`. -/
def callSimLaunch (dpi : DPIModuleNode σ) (w : World σ) : World σ :=
  { w with sim := dpi.SimLaunch w.sim, trace := w.trace ++ [Op.SimLaunch] }

/-- The call `dpi_->SimWait()`. -/
def callSimWait (dpi : DPIModuleNode σ) (w : World σ) : World σ :=
  { w with sim := dpi.SimWait w.sim, trace := w.trace ++ [Op.SimWait] }

/-- The call `dpi_->SimResume()`. -/
def callSimResume (dpi : DPIModuleNode σ) (w : World σ) : World σ :=
  { w with sim := dpi.SimResume w.sim, trace := w.trace ++ [Op.SimResume] }

/-- The call `dpi_->SimFinish()`. -/
def callSimFinish (dpi : DPIModuleNode σ) (w : World σ) : World σ :=
  { w with sim := dpi.SimFinish w.sim, trace := w.trace ++ [Op.SimFinish] }

/-- The call `dpi_->WriteReg(addr, value)`. -/
def callWriteReg (dpi : DPIModuleNode σ) (addr value : Nat) (w : World σ) : World σ :=
  { w with sim := dpi.WriteReg addr value w.sim, trace := w.trace ++ [Op.WriteReg addr value] }

/-- The call `dpi_->ReadReg(addr)`: the `uint32_t` it returns and the world
after the call. -/
def callReadReg (dpi : DPIModuleNode σ) (addr : Nat) (w : World σ) : Nat × World σ :=
  ((dpi.ReadReg addr w.sim).1 % 4294967296,
   { w with sim := (dpi.ReadReg addr w.sim).2,
            trace := w.trace ++ [Op.ReadReg addr ((dpi.ReadReg addr w.sim).1 % 4294967296)] })

/-- The call `prof_->Update(idx, value)`. -/
def callUpdate (idx value : Nat) (w : World σ) : World σ :=
  { w with prof := w.prof.Update idx value, updates := w.updates ++ [(idx, value)] }

/-! ## DPILoader -/

namespace DPILoader

/-- Source `void Init(Module module)`: after the handle is stored, `SimLaunch` then
`SimWait`. -/
def Init (dpi : DPIModuleNode σ) (w : World σ) : World σ :=
  callSimWait dpi (callSimLaunch dpi w)

/-- Source `~DPILoader()`: `SimResume` then `SimFinish`. -/
def destroy (dpi : DPIModuleNode σ) (w : World σ) : World σ :=
  callSimFinish dpi (callSimResume dpi w)

end DPILoader

/-! ## Device -/

namespace Device

/-- Source `void Init()`: `dpi_ = loader_->Get(); dpi_->SimResume();` -/
def Init (dpi : DPIModuleNode σ) (w : World σ) : World σ :=
  callSimResume dpi w

/-- Source `void Launch(insn_phy_addr, insn_count, wait_cycles)`: the 22
configuration writes in source order, then the start bit. -/
def Launch (dpi : DPIModuleNode σ) (insn_phy_addr insn_count _wait_cycles : Nat)
    (w : World σ) : World σ :=
  let w := callWriteReg dpi 0x04 0 w
  let w := callWriteReg dpi 0x08 insn_count w
  let w := callWriteReg dpi 0x0c insn_phy_addr w
  let w := callWriteReg dpi 0x10 0 w
  let w := callWriteReg dpi 0x14 0 w
  let w := callWriteReg dpi 0x18 0 w
  let w := callWriteReg dpi 0x1c 0 w
  let w := callWriteReg dpi 0x20 0 w
  let w := callWriteReg dpi 0x24 0 w
  let w := callWriteReg dpi 0x28 0 w
  let w := callWriteReg dpi 0x2c 0 w
  let w := callWriteReg dpi 0x30 0 w
  let w := callWriteReg dpi 0x34 0 w
  let w := callWriteReg dpi 0x38 0 w
  let w := callWriteReg dpi 0x3c 0 w
  let w := callWriteReg dpi 0x40 0 w
  let w := callWriteReg dpi 0x44 0 w
  let w := callWriteReg dpi 0x48 0 w
  let w := callWriteReg dpi 0x4c 0 w
  let w := callWriteReg dpi 0x50 0 w
  let w := callWriteReg dpi 0x54 0 w
  let w := callWriteReg dpi 0x58 0 w
  callWriteReg dpi 0x00 0x1 w

/-- The polling loop of `WaitForCompletion`,
`for (i = 0; i < wait_cycles; i++) { val = ReadReg(0x00); val &= 0x2;
if (val == 0x2) break; }`, with `n = wait_cycles - i` iterations left. -/
def waitLoop (dpi : DPIModuleNode σ) : Nat → World σ → World σ
  | 0, w => w
  | n + 1, w =>
    let r := callReadReg dpi 0x00 w
    if r.1 &&& 0x2 = 0x2 then r.2 else waitLoop dpi n r.2

/-- The second loop of `WaitForCompletion`,
`for (uint i = 1, a = 0x24; i < 15; i++, a += 0x4) prof_->Update(i, ReadReg(a));`,
from the loop state `(i, a)`. -/
def readLoop (dpi : DPIModuleNode σ) (i a : Nat) (w : World σ) : World σ :=
  if i < 15 then
    let r := callReadReg dpi a w
    readLoop dpi (i + 1) (a + 0x4) (callUpdate i r.1 r.2)
  else w
termination_by 15 - i

/-- The part of `WaitForCompletion` after the polling loop: the read of
`0x04` into counter `0`, the loop over the fourteen event registers, and
`SimWait`. -/
def readback (dpi : DPIModuleNode σ) (w : World σ) : World σ :=
  let r := callReadReg dpi 0x04 w
  let w := callUpdate 0 r.1 r.2
  let w := readLoop dpi 1 0x24 w
  callSimWait dpi w

/-- Source `void WaitForCompletion(uint32_t wait_cycles)`. -/
def WaitForCompletion (dpi : DPIModuleNode σ) (wait_cycles : Nat) (w : World σ) : World σ :=
  readback dpi (waitLoop dpi wait_cycles w)

/-- Source `int Run(insn_phy_addr, insn_count, wait_cycles)`: `Init`, `Launch`,
`WaitForCompletion`, `return 0`. -/
def Run (dpi : DPIModuleNode σ) (insn_phy_addr insn_count wait_cycles : Nat)
    (w : World σ) : Int × World σ :=
  let w := Init dpi w
  let w := Launch dpi insn_phy_addr insn_count wait_cycles w
  let w := WaitForCompletion dpi wait_cycles w
  (0, w)

end Device

/-! ## Observations on a run -/

/-- The calls made on the handle between world `w` and a later world `w1`. -/
def opsSince (w w1 : World σ) : List Op := w1.trace.drop w.trace.length

/-- The `Update` calls made between world `w` and a later world `w1`. -/
def updatesSince (w w1 : World σ) : List (Nat × Nat) := w1.updates.drop w.updates.length

/-- The register writes of a list of calls, as `(addr, value)`, in order. -/
def writesOf : List Op → List (Nat × Nat)
  | [] => []
  | Op.WriteReg a v :: ops => (a, v) :: writesOf ops
  | _ :: ops => writesOf ops

/-- The addresses of the register reads of a list of calls, in order. -/
def readsOf : List Op → List Nat
  | [] => []
  | Op.ReadReg a _ :: ops => a :: readsOf ops
  | _ :: ops => readsOf ops

/-- The simulation-control calls of a list of calls, in order. -/
def simOpsOf : List Op → List Op
  | [] => []
  | Op.WriteReg _ _ :: ops => simOpsOf ops
  | Op.ReadReg _ _ :: ops => simOpsOf ops
  | op :: ops => op :: simOpsOf ops

/-- The values the backend returns to reads of the addresses `addrs`, made in
that order from backend state `s`. -/
def readSeq (dpi : DPIModuleNode σ) : List Nat → σ → List Nat
  | [], _ => []
  | a :: addrs, s => (dpi.ReadReg a s).1 % 4294967296 :: readSeq dpi addrs (dpi.ReadReg a s).2

/-- The backend state after reads of the addresses `addrs` from state `s`. -/
def readEnd (dpi : DPIModuleNode σ) : List Nat → σ → σ
  | [], s => s
  | a :: addrs, s => readEnd dpi addrs (dpi.ReadReg a s).2

/-- The response of the backend to poll number `j` (counted from `0`) of the
control register `0x00`, when polls are made one after the other from
backend state `s`. -/
def pollResp (dpi : DPIModuleNode σ) (s : σ) (j : Nat) : Nat :=
  (dpi.ReadReg 0x00 (readEnd dpi (List.replicate j 0x00) s)).1 % 4294967296

/-- The calls of `k` consecutive polls of the control register from backend
state `s`, each with the response it got. -/
def pollOps (dpi : DPIModuleNode σ) (s : σ) (k : Nat) : List Op :=
  (List.range k).map fun j => Op.ReadReg 0x00 (pollResp dpi s j)

/-- The register addresses of the readback, in the order counter `0`, `1`, ...,
`14` is fed from them. -/
def readbackAddrs : List Nat :=
  [0x04, 0x24, 0x28, 0x2c, 0x30, 0x34, 0x38, 0x3c, 0x40, 0x44, 0x48, 0x4c, 0x50, 0x54, 0x58]

/-- The values the readback reads when it starts in backend state `s`, in the
order of `readbackAddrs`. -/
def readbackVals (dpi : DPIModuleNode σ) (s : σ) : List Nat :=
  readSeq dpi readbackAddrs s

/-- The world of `Run` once `Init` and `Launch` have returned. -/
def Device.launched (dpi : DPIModuleNode σ) (insn_phy_addr insn_count wait_cycles : Nat)
    (w : World σ) : World σ :=
  Device.Launch dpi insn_phy_addr insn_count wait_cycles (Device.Init dpi w)

/-- The world of `Run` when the polling loop of `WaitForCompletion` is left. -/
def Device.polled (dpi : DPIModuleNode σ) (insn_phy_addr insn_count wait_cycles : Nat)
    (w : World σ) : World σ :=
  Device.waitLoop dpi wait_cycles (Device.launched dpi insn_phy_addr insn_count wait_cycles w)

/-- The `Run` calls of a session, made in order; each entry is
`(insn_phy_addr, insn_count, wait_cycles)`. -/
def runAll (dpi : DPIModuleNode σ) : List (Nat × Nat × Nat) → World σ → World σ
  | [], w => w
  | r :: rs, w => runAll dpi rs (Device.Run dpi r.1 r.2.1 r.2.2 w).2

/-- The life of a session: `DPILoader::Init`, the `Run` calls in order, and
the destructor of the `DPILoader` at process exit. -/
def session (dpi : DPIModuleNode σ) (runs : List (Nat × Nat × Nat)) (w : World σ) : World σ :=
  DPILoader.destroy dpi (runAll dpi runs (DPILoader.Init dpi w))

/-- The simulation-control calls of `n` runs: `SimResume` then `SimWait`, `n`
times over. -/
def runSimOps : Nat → List Op
  | 0 => []
  | n + 1 => Op.SimResume :: Op.SimWait :: runSimOps n

/-! ## Concrete backends and worlds -/

/-- A backend that counts the reads made on it: read number `t` (from `0`)
returns `0x2` when `t = ready` and `0x0` otherwise; writes and the
simulation-control calls leave the count alone. -/
def readyAt (ready : Nat) : DPIModuleNode Nat where
  SimLaunch := fun s => s
  SimWait := fun s => s
  SimResume := fun s => s
  SimFinish := fun s => s
  WriteReg := fun _ _ s => s
  ReadReg := fun _ s => (if s = ready then 0x2 else 0x0, s + 1)

/-- A backend that never finishes: every register reads as `0x1`. -/
def neverReady : DPIModuleNode Unit where
  SimLaunch := fun s => s
  SimWait := fun s => s
  SimResume := fun s => s
  SimFinish := fun s => s
  WriteReg := fun _ _ s => s
  ReadReg := fun _ s => (0x1, s)

/-- The world of a fresh process on backend state `s`: nothing called yet,
the bank as its constructor leaves it. -/
def World.start (s : σ) : World σ := ⟨s, [], Profiler.new, []⟩

/-- The world of a process on backend state `s` whose bank is `p`. -/
def World.withBank (s : σ) (p : Profiler) : World σ := ⟨s, [], p, []⟩

/-- The bank after `Update(idx, value)` on a fresh bank. -/
def bankAfter (idx value : Nat) : Profiler := Profiler.new.Update idx value

/-! ## The export schema and further observations -/

/-- The export schema as the specification lists it: field name and the index
of the counter the field is assigned to, in the order of the schema. -/
def exportSchema : List (String × Nat) :=
  [ ("cycle_counter", 0), ("acc_wr_counter", 1), ("acc_load_nbytes", 2),
    ("inp_load_nbytes", 3), ("wgt_load_nbytes", 4), ("uop_load_nbytes", 5),
    ("out_store_nbytes", 6), ("alu_counter", 7), ("gemm_counter", 8),
    ("idle_ld_cycles", 9), ("idle_st_cycles", 10), ("idle_cp_cycles", 11),
    ("stall_ld_cycles", 12), ("stall_st_cycles", 13), ("stall_cp_cycles", 14) ]

/-- The call `AsJSON()` as a step on the bank: the text returned and the bank
after the call. The body of `AsJSON` reads `counters_` and assigns to no
member, so the bank after the call is the bank before it. -/
def Profiler.callAsJSON (p : Profiler) : String × Profiler := (p.AsJSON, p)

/-- The bank whose fifteen counters all hold `v`. -/
def bankOf (v : Int) : Profiler := ⟨fun _ => v⟩

/-- The calls `Launch` makes, in order: the register writes of the source. -/
def launchCalls (insn_phy_addr insn_count : Nat) : List Op :=
  [Op.WriteReg 0x04 0, Op.WriteReg 0x08 insn_count, Op.WriteReg 0x0c insn_phy_addr,
    Op.WriteReg 0x10 0, Op.WriteReg 0x14 0, Op.WriteReg 0x18 0, Op.WriteReg 0x1c 0,
    Op.WriteReg 0x20 0, Op.WriteReg 0x24 0, Op.WriteReg 0x28 0, Op.WriteReg 0x2c 0,
    Op.WriteReg 0x30 0, Op.WriteReg 0x34 0, Op.WriteReg 0x38 0, Op.WriteReg 0x3c 0,
    Op.WriteReg 0x40 0, Op.WriteReg 0x44 0, Op.WriteReg 0x48 0, Op.WriteReg 0x4c 0,
    Op.WriteReg 0x50 0, Op.WriteReg 0x54 0, Op.WriteReg 0x58 0, Op.WriteReg 0x00 0x1]

/-- A world with a history: backend state `s`, an earlier `DPILoader::Init`
in the trace, and a bank on which `Update(0, 41)` has been called. -/
def World.later (s : σ) : World σ :=
  ⟨s, [Op.SimLaunch, Op.SimWait], bankAfter 0 41, [(0, 41)]⟩

/-! ## Lemmas on the embedding -/

theorem readback_trace (dpi : DPIModuleNode σ) (w : World σ) :
    (Device.readback dpi w).trace
      = w.trace ++ List.zipWith Op.ReadReg readbackAddrs (readbackVals dpi w.sim)
          ++ [Op.SimWait] := by
  simp [Device.readback, Device.readLoop, callReadReg, callUpdate, callSimWait,
    readbackAddrs, readbackVals, readSeq]

theorem readback_updates (dpi : DPIModuleNode σ) (w : World σ) :
    (Device.readback dpi w).updates
      = w.updates ++ List.zip (List.range 15) (readbackVals dpi w.sim) := by
  simp [Device.readback, Device.readLoop, callReadReg, callUpdate, callSimWait,
    readbackAddrs, readbackVals, readSeq, List.range, List.range.loop]

theorem readback_sim (dpi : DPIModuleNode σ) (w : World σ) :
    (Device.readback dpi w).sim = dpi.SimWait (readEnd dpi readbackAddrs w.sim) := by
  simp [Device.readback, Device.readLoop, callReadReg, callUpdate, callSimWait,
    readbackAddrs, readEnd]


theorem readback_counters (dpi : DPIModuleNode σ) (w : World σ) (i : Fin 15) :
    (Device.readback dpi w).prof.counters_ i
      = toInt32 ((toUInt32 (w.prof.counters_ i) + (readbackVals dpi w.sim).getD i.val 0)
          % 4294967296) := by
  fin_cases i <;>
    simp [Device.readback, Device.readLoop, callReadReg, callUpdate, callSimWait,
      readbackAddrs, readbackVals, readSeq, Profiler.Update, Profiler.put, Profiler.get,
      Function.update]

theorem Launch_trace (dpi : DPIModuleNode σ) (a c wc : Nat) (w : World σ) :
    (Device.Launch dpi a c wc w).trace
      = w.trace ++ [Op.WriteReg 0x04 0, Op.WriteReg 0x08 c, Op.WriteReg 0x0c a,
          Op.WriteReg 0x10 0, Op.WriteReg 0x14 0, Op.WriteReg 0x18 0, Op.WriteReg 0x1c 0,
          Op.WriteReg 0x20 0, Op.WriteReg 0x24 0, Op.WriteReg 0x28 0, Op.WriteReg 0x2c 0,
          Op.WriteReg 0x30 0, Op.WriteReg 0x34 0, Op.WriteReg 0x38 0, Op.WriteReg 0x3c 0,
          Op.WriteReg 0x40 0, Op.WriteReg 0x44 0, Op.WriteReg 0x48 0, Op.WriteReg 0x4c 0,
          Op.WriteReg 0x50 0, Op.WriteReg 0x54 0, Op.WriteReg 0x58 0, Op.WriteReg 0x00 0x1] := by
  simp [Device.Launch, callWriteReg]

theorem Launch_prof (dpi : DPIModuleNode σ) (a c wc : Nat) (w : World σ) :
    (Device.Launch dpi a c wc w).prof = w.prof ∧
      (Device.Launch dpi a c wc w).updates = w.updates := by
  simp [Device.Launch, callWriteReg]

theorem pollOps_succ (dpi : DPIModuleNode σ) (s : σ) (k : Nat) :
    pollOps dpi s (k + 1)
      = Op.ReadReg 0x00 ((dpi.ReadReg 0x00 s).1 % 4294967296)
          :: pollOps dpi (dpi.ReadReg 0x00 s).2 k := by
  simp [pollOps, List.range_succ_eq_map, pollResp, readEnd, List.replicate_succ]

theorem waitLoop_prof (dpi : DPIModuleNode σ) (n : Nat) (w : World σ) :
    (Device.waitLoop dpi n w).prof = w.prof ∧ (Device.waitLoop dpi n w).updates = w.updates := by
  induction n generalizing w with
  | zero => simp [Device.waitLoop]
  | succ n ih =>
    simp only [Device.waitLoop]
    split
    · simp [callReadReg]
    · have h := ih (callReadReg dpi 0x00 w).2
      simpa [callReadReg] using h

/-- The polling loop stops at the first response with bit 1 set. -/
theorem waitLoop_early (dpi : DPIModuleNode σ) (n k : Nat) (w : World σ) (hk : k < n)
    (hbefore : ∀ j, j < k → pollResp dpi w.sim j &&& 0x2 ≠ 0x2)
    (hat : pollResp dpi w.sim k &&& 0x2 = 0x2) :
    (Device.waitLoop dpi n w).trace = w.trace ++ pollOps dpi w.sim (k + 1) ∧
      (Device.waitLoop dpi n w).sim = readEnd dpi (List.replicate (k + 1) 0x00) w.sim := by
  induction n generalizing w k with
  | zero => omega
  | succ n ih =>
    cases k with
    | zero =>
      have h0 : (dpi.ReadReg 0 w.sim).1 % 4294967296 &&& 2 = 2 := by
        simpa [pollResp, readEnd] using hat
      rw [pollOps_succ]
      simp [Device.waitLoop, callReadReg, h0, pollOps, readEnd]
    | succ k =>
      have h0 : ¬ ((dpi.ReadReg 0 w.sim).1 % 4294967296 &&& 2 = 2) := by
        simpa [pollResp, readEnd] using hbefore 0 (by omega)
      have hb : ∀ j, j < k → pollResp dpi (callReadReg dpi 0x00 w).2.sim j &&& 0x2 ≠ 0x2 := by
        intro j hj
        have := hbefore (j + 1) (by omega)
        simpa [pollResp, readEnd, callReadReg, List.replicate_succ] using this
      have ha : pollResp dpi (callReadReg dpi 0x00 w).2.sim k &&& 0x2 = 0x2 := by
        simpa [pollResp, readEnd, callReadReg, List.replicate_succ] using hat
      have h := ih k (callReadReg dpi 0x00 w).2 (by omega) hb ha
      rw [pollOps_succ]
      simp only [Device.waitLoop]
      rw [if_neg (by simpa [callReadReg] using h0)]
      rw [h.1, h.2]
      simp [callReadReg, readEnd, List.replicate_succ]

/-- The polling loop runs `n` times when no response has bit 1 set. -/
theorem waitLoop_exhaust (dpi : DPIModuleNode σ) (n : Nat) (w : World σ)
    (hnone : ∀ j, j < n → pollResp dpi w.sim j &&& 0x2 ≠ 0x2) :
    (Device.waitLoop dpi n w).trace = w.trace ++ pollOps dpi w.sim n ∧
      (Device.waitLoop dpi n w).sim = readEnd dpi (List.replicate n 0x00) w.sim := by
  induction n generalizing w with
  | zero => simp [Device.waitLoop, pollOps, readEnd]
  | succ n ih =>
    have h0 : ¬ ((dpi.ReadReg 0 w.sim).1 % 4294967296 &&& 2 = 2) := by
      simpa [pollResp, readEnd] using hnone 0 (by omega)
    have hb : ∀ j, j < n → pollResp dpi (callReadReg dpi 0x00 w).2.sim j &&& 0x2 ≠ 0x2 := by
      intro j hj
      have := hnone (j + 1) (by omega)
      simpa [pollResp, readEnd, callReadReg, List.replicate_succ] using this
    have h := ih (callReadReg dpi 0x00 w).2 hb
    rw [pollOps_succ]
    simp only [Device.waitLoop]
    rw [if_neg (by simpa [callReadReg] using h0)]
    rw [h.1, h.2]
    simp [callReadReg, readEnd, List.replicate_succ]

/-- Whatever the backend answers, the polling loop makes some number
`m ≤ n` of polls and nothing else. -/
theorem waitLoop_shape (dpi : DPIModuleNode σ) (n : Nat) (w : World σ) :
    ∃ m, m ≤ n ∧ (Device.waitLoop dpi n w).trace = w.trace ++ pollOps dpi w.sim m := by
  induction n generalizing w with
  | zero => exact ⟨0, le_refl _, by simp [Device.waitLoop, pollOps]⟩
  | succ n ih =>
    by_cases h0 : (dpi.ReadReg 0 w.sim).1 % 4294967296 &&& 2 = 2
    · refine ⟨1, by omega, ?_⟩
      rw [pollOps_succ]
      simp [Device.waitLoop, callReadReg, h0, pollOps]
    · obtain ⟨m, hm, ht⟩ := ih (callReadReg dpi 0x00 w).2
      refine ⟨m + 1, by omega, ?_⟩
      rw [pollOps_succ]
      simp only [Device.waitLoop]
      rw [if_neg (by simpa [callReadReg] using h0), ht]
      simp [callReadReg]

theorem writesOf_append (l1 l2 : List Op) : writesOf (l1 ++ l2) = writesOf l1 ++ writesOf l2 := by
  induction l1 with
  | nil => rfl
  | cons op l ih => cases op <;> simp [writesOf, ih]

theorem readsOf_append (l1 l2 : List Op) : readsOf (l1 ++ l2) = readsOf l1 ++ readsOf l2 := by
  induction l1 with
  | nil => rfl
  | cons op l ih => cases op <;> simp [readsOf, ih]

theorem simOpsOf_append (l1 l2 : List Op) : simOpsOf (l1 ++ l2) = simOpsOf l1 ++ simOpsOf l2 := by
  induction l1 with
  | nil => rfl
  | cons op l ih => cases op <;> simp [simOpsOf, ih]

theorem pollOps_obs (dpi : DPIModuleNode σ) (s : σ) (k : Nat) :
    readsOf (pollOps dpi s k) = List.replicate k 0x00 ∧ writesOf (pollOps dpi s k) = [] ∧
      simOpsOf (pollOps dpi s k) = [] := by
  induction k generalizing s with
  | zero => simp [pollOps, readsOf, writesOf, simOpsOf]
  | succ k ih =>
    rw [pollOps_succ]
    simp [readsOf, writesOf, simOpsOf, ih, List.replicate_succ]

theorem readbackVals_length (dpi : DPIModuleNode σ) (s : σ) :
    (readbackVals dpi s).length = 15 := by
  simp [readbackVals, readbackAddrs, readSeq]

theorem readbackOps_obs (dpi : DPIModuleNode σ) (s : σ) :
    readsOf (List.zipWith Op.ReadReg readbackAddrs (readbackVals dpi s)) = readbackAddrs ∧
      writesOf (List.zipWith Op.ReadReg readbackAddrs (readbackVals dpi s)) = [] ∧
      simOpsOf (List.zipWith Op.ReadReg readbackAddrs (readbackVals dpi s)) = [] := by
  simp [readbackVals, readbackAddrs, readSeq, readsOf, writesOf, simOpsOf]

theorem opsSince_of_trace (w w1 : World σ) (ops : List Op) (h : w1.trace = w.trace ++ ops) :
    opsSince w w1 = ops := by
  simp [opsSince, h]

theorem updatesSince_of_updates (w w1 : World σ) (us : List (Nat × Nat))
    (h : w1.updates = w.updates ++ us) : updatesSince w w1 = us := by
  simp [updatesSince, h]

theorem Run_world (dpi : DPIModuleNode σ) (a c wc : Nat) (w : World σ) :
    (Device.Run dpi a c wc w).2 = Device.readback dpi (Device.polled dpi a c wc w) := rfl

theorem launched_trace (dpi : DPIModuleNode σ) (a c wc : Nat) (w : World σ) :
    (Device.launched dpi a c wc w).trace
      = w.trace ++ Op.SimResume :: [Op.WriteReg 0x04 0, Op.WriteReg 0x08 c, Op.WriteReg 0x0c a,
          Op.WriteReg 0x10 0, Op.WriteReg 0x14 0, Op.WriteReg 0x18 0, Op.WriteReg 0x1c 0,
          Op.WriteReg 0x20 0, Op.WriteReg 0x24 0, Op.WriteReg 0x28 0, Op.WriteReg 0x2c 0,
          Op.WriteReg 0x30 0, Op.WriteReg 0x34 0, Op.WriteReg 0x38 0, Op.WriteReg 0x3c 0,
          Op.WriteReg 0x40 0, Op.WriteReg 0x44 0, Op.WriteReg 0x48 0, Op.WriteReg 0x4c 0,
          Op.WriteReg 0x50 0, Op.WriteReg 0x54 0, Op.WriteReg 0x58 0, Op.WriteReg 0x00 0x1] := by
  simp [Device.launched, Launch_trace, Device.Init, callSimResume]

theorem launched_prof (dpi : DPIModuleNode σ) (a c wc : Nat) (w : World σ) :
    (Device.launched dpi a c wc w).prof = w.prof ∧
      (Device.launched dpi a c wc w).updates = w.updates := by
  simp [Device.launched, Launch_prof, Device.Init, callSimResume]

theorem polled_prof (dpi : DPIModuleNode σ) (a c wc : Nat) (w : World σ) :
    (Device.polled dpi a c wc w).prof = w.prof ∧
      (Device.polled dpi a c wc w).updates = w.updates := by
  simp [Device.polled, waitLoop_prof, launched_prof]

/-- The register writes of a whole `Run`, in order. -/
theorem Run_writes (dpi : DPIModuleNode σ) (a c wc : Nat) (w : World σ) :
    writesOf (opsSince w (Device.Run dpi a c wc w).2)
      = [(0x04, 0), (0x08, c), (0x0c, a), (0x10, 0), (0x14, 0), (0x18, 0), (0x1c, 0),
          (0x20, 0), (0x24, 0), (0x28, 0), (0x2c, 0), (0x30, 0), (0x34, 0), (0x38, 0),
          (0x3c, 0), (0x40, 0), (0x44, 0), (0x48, 0), (0x4c, 0), (0x50, 0), (0x54, 0),
          (0x58, 0), (0x00, 0x1)] := by
  obtain ⟨m, _, hm⟩ := waitLoop_shape dpi wc (Device.launched dpi a c wc w)
  have ht : (Device.Run dpi a c wc w).2.trace = w.trace ++
      (Op.SimResume :: [Op.WriteReg 0x04 0, Op.WriteReg 0x08 c, Op.WriteReg 0x0c a,
          Op.WriteReg 0x10 0, Op.WriteReg 0x14 0, Op.WriteReg 0x18 0, Op.WriteReg 0x1c 0,
          Op.WriteReg 0x20 0, Op.WriteReg 0x24 0, Op.WriteReg 0x28 0, Op.WriteReg 0x2c 0,
          Op.WriteReg 0x30 0, Op.WriteReg 0x34 0, Op.WriteReg 0x38 0, Op.WriteReg 0x3c 0,
          Op.WriteReg 0x40 0, Op.WriteReg 0x44 0, Op.WriteReg 0x48 0, Op.WriteReg 0x4c 0,
          Op.WriteReg 0x50 0, Op.WriteReg 0x54 0, Op.WriteReg 0x58 0, Op.WriteReg 0x00 0x1]
        ++ pollOps dpi (Device.launched dpi a c wc w).sim m
        ++ List.zipWith Op.ReadReg readbackAddrs
            (readbackVals dpi (Device.polled dpi a c wc w).sim)
        ++ [Op.SimWait]) := by
    rw [Run_world, readback_trace, Device.polled, hm, launched_trace]
    simp [List.append_assoc]
  rw [opsSince_of_trace _ _ _ ht]
  simp only [writesOf_append, (pollOps_obs dpi _ m).2.1, (readbackOps_obs dpi _).2.1]
  simp [writesOf]

/-- C1: for every `insn_phy_addr`, `insn_count`, `wait_cycles`, backend and
starting world, the register writes of one `Run` are some configuration
writes `cfg` followed by the write of `0x1` to offset `0x00`: that write is the
last one, no write of `cfg` goes to offset `0x00`, and each of the offsets
`0x04, 0x08, ..., 0x58` is written in `cfg`, hence before the start bit. -/
theorem Run_start_bit_last (dpi : DPIModuleNode σ) (insn_phy_addr insn_count wait_cycles : Nat)
    (w : World σ) :
    ∃ cfg : List (Nat × Nat),
      writesOf (opsSince w (Device.Run dpi insn_phy_addr insn_count wait_cycles w).2)
          = cfg ++ [(0x00, 0x1)] ∧
        0x00 ∉ cfg.map Prod.fst ∧
        ∀ k : Fin 22, 0x04 + 4 * k.val ∈ cfg.map Prod.fst := by
  refine ⟨[(0x04, 0), (0x08, insn_count), (0x0c, insn_phy_addr), (0x10, 0), (0x14, 0),
      (0x18, 0), (0x1c, 0), (0x20, 0), (0x24, 0), (0x28, 0), (0x2c, 0), (0x30, 0), (0x34, 0),
      (0x38, 0), (0x3c, 0), (0x40, 0), (0x44, 0), (0x48, 0), (0x4c, 0), (0x50, 0), (0x54, 0),
      (0x58, 0)], ?_, ?_, ?_⟩
  · rw [Run_writes]; rfl
  · simp
  · intro k; fin_cases k <;> simp

/-- The calls of `WaitForCompletion` when the polling loop makes `k` polls. -/
theorem WaitForCompletion_ops (dpi : DPIModuleNode σ) (wc k : Nat) (w : World σ)
    (h : (Device.waitLoop dpi wc w).trace = w.trace ++ pollOps dpi w.sim k) :
    opsSince w (Device.WaitForCompletion dpi wc w)
      = pollOps dpi w.sim k
          ++ List.zipWith Op.ReadReg readbackAddrs
              (readbackVals dpi (Device.waitLoop dpi wc w).sim)
          ++ [Op.SimWait] := by
  apply opsSince_of_trace
  rw [Device.WaitForCompletion, readback_trace, h]
  simp [List.append_assoc]

theorem count_zero_reads (k : Nat) :
    (List.replicate k 0x00 ++ readbackAddrs).count 0x00 = k := by
  simp [List.count_append, List.count_replicate, readbackAddrs]

/-- C2: if response number `k` (`1 ≤ k ≤ wait_cycles`) of the status register
is the first one with bit 1 set, whatever its other bits, the polling loop of
`WaitForCompletion` makes exactly the first `k` polls, and the reads of the
whole `WaitForCompletion` are `k` reads of offset `0x00` followed by the reads
of the readback. -/
theorem WaitForCompletion_early_exit (dpi : DPIModuleNode σ) (wait_cycles k : Nat) (w : World σ)
    (hk1 : 1 ≤ k) (hk : k ≤ wait_cycles)
    (hbefore : ∀ j, j < k - 1 → pollResp dpi w.sim j &&& 0x2 ≠ 0x2)
    (hat : pollResp dpi w.sim (k - 1) &&& 0x2 = 0x2) :
    opsSince w (Device.waitLoop dpi wait_cycles w) = pollOps dpi w.sim k ∧
      readsOf (opsSince w (Device.WaitForCompletion dpi wait_cycles w))
        = List.replicate k 0x00 ++ readbackAddrs ∧
      (readsOf (opsSince w (Device.WaitForCompletion dpi wait_cycles w))).count 0x00 = k := by
  obtain ⟨k, rfl⟩ : ∃ k0, k = k0 + 1 := ⟨k - 1, by omega⟩
  have h := (waitLoop_early dpi wait_cycles k w (by omega) (by simpa using hbefore)
    (by simpa using hat)).1
  have hr : readsOf (opsSince w (Device.WaitForCompletion dpi wait_cycles w))
      = List.replicate (k + 1) 0x00 ++ readbackAddrs := by
    rw [WaitForCompletion_ops dpi wait_cycles (k + 1) w h]
    simp only [readsOf_append, (pollOps_obs dpi _ _).1, (readbackOps_obs dpi _).1]
    simp [readsOf]
  refine ⟨opsSince_of_trace _ _ _ h, hr, ?_⟩
  rw [hr, count_zero_reads]

/-- C2, the scenario: with `wait_cycles = 10` and `0x2` returned on the third
poll, exactly three reads of offset `0x00` are made, then the readback. -/
theorem WaitForCompletion_early_exit_third_poll :
    opsSince (World.start 0) (Device.waitLoop (readyAt 2) 10 (World.start 0))
        = pollOps (readyAt 2) 0 3 ∧
      readsOf (opsSince (World.start 0) (Device.WaitForCompletion (readyAt 2) 10 (World.start 0)))
        = List.replicate 3 0x00 ++ readbackAddrs ∧
      (readsOf (opsSince (World.start 0)
        (Device.WaitForCompletion (readyAt 2) 10 (World.start 0)))).count 0x00 = 3 :=
  WaitForCompletion_early_exit (readyAt 2) 10 3 (World.start 0) (by decide) (by decide)
    (by decide) (by decide)

/-- C3: if none of the first `wait_cycles` responses of the status register
has bit 1 set (`wait_cycles = 0` included), the polling loop makes exactly
`wait_cycles` polls, and `WaitForCompletion` goes on with the whole readback:
its reads are `wait_cycles` reads of offset `0x00` followed by the fifteen
reads of the readback, it makes the fifteen `Update` calls, one per counter,
with the values read, and it ends with `SimWait`. -/
theorem WaitForCompletion_timeout (dpi : DPIModuleNode σ) (wait_cycles : Nat) (w : World σ)
    (hnone : ∀ j, j < wait_cycles → pollResp dpi w.sim j &&& 0x2 ≠ 0x2) :
    opsSince w (Device.waitLoop dpi wait_cycles w) = pollOps dpi w.sim wait_cycles ∧
      readsOf (opsSince w (Device.WaitForCompletion dpi wait_cycles w))
        = List.replicate wait_cycles 0x00 ++ readbackAddrs ∧
      (readsOf (opsSince w (Device.WaitForCompletion dpi wait_cycles w))).count 0x00
        = wait_cycles ∧
      updatesSince w (Device.WaitForCompletion dpi wait_cycles w)
        = List.zip (List.range 15) (readbackVals dpi (Device.waitLoop dpi wait_cycles w).sim) ∧
      (updatesSince w (Device.WaitForCompletion dpi wait_cycles w)).length = 15 ∧
      (opsSince w (Device.WaitForCompletion dpi wait_cycles w)).getLast? = some Op.SimWait := by
  have h := (waitLoop_exhaust dpi wait_cycles w hnone).1
  have hr : readsOf (opsSince w (Device.WaitForCompletion dpi wait_cycles w))
      = List.replicate wait_cycles 0x00 ++ readbackAddrs := by
    rw [WaitForCompletion_ops dpi wait_cycles wait_cycles w h]
    simp only [readsOf_append, (pollOps_obs dpi _ _).1, (readbackOps_obs dpi _).1]
    simp [readsOf]
  have hu : updatesSince w (Device.WaitForCompletion dpi wait_cycles w)
      = List.zip (List.range 15) (readbackVals dpi (Device.waitLoop dpi wait_cycles w).sim) := by
    apply updatesSince_of_updates
    rw [Device.WaitForCompletion, readback_updates, (waitLoop_prof dpi wait_cycles w).2]
  refine ⟨opsSince_of_trace _ _ _ h, hr, ?_, hu, ?_, ?_⟩
  · rw [hr, count_zero_reads]
  · rw [hu]; simp [readbackVals_length]
  · rw [WaitForCompletion_ops dpi wait_cycles wait_cycles w h]
    simp

/-- C3, the scenario: with `wait_cycles = 5` and a status register that never
returns `0x2`, exactly five reads of offset `0x00` are made, and the readback
still runs. -/
theorem WaitForCompletion_timeout_five_polls :
    opsSince (World.start ()) (Device.waitLoop neverReady 5 (World.start ()))
        = pollOps neverReady () 5 ∧
      readsOf (opsSince (World.start ()) (Device.WaitForCompletion neverReady 5 (World.start ())))
        = List.replicate 5 0x00 ++ readbackAddrs ∧
      (readsOf (opsSince (World.start ())
        (Device.WaitForCompletion neverReady 5 (World.start ())))).count 0x00 = 5 ∧
      updatesSince (World.start ()) (Device.WaitForCompletion neverReady 5 (World.start ()))
        = List.zip (List.range 15)
            (readbackVals neverReady (Device.waitLoop neverReady 5 (World.start ())).sim) ∧
      (updatesSince (World.start ())
        (Device.WaitForCompletion neverReady 5 (World.start ()))).length = 15 ∧
      (opsSince (World.start ())
        (Device.WaitForCompletion neverReady 5 (World.start ()))).getLast? = some Op.SimWait :=
  WaitForCompletion_timeout neverReady 5 (World.start ()) (by decide)

/-- C4: for every `Run` and every backend, the register reads made after the
polling loop are exactly the fifteen reads of offsets `0x04, 0x24, 0x28, ...,
0x58`, in that order; the calls of the polling loop are `m` polls of the
control register `0x00`, one per iteration, for some `m ≤ wait_cycles`, and
all reads of the run before the readback are these `m` reads of `0x00`. -/
theorem Run_reads (dpi : DPIModuleNode σ) (insn_phy_addr insn_count wait_cycles : Nat)
    (w : World σ) :
    readsOf (opsSince (Device.polled dpi insn_phy_addr insn_count wait_cycles w)
        (Device.Run dpi insn_phy_addr insn_count wait_cycles w).2)
      = [0x04, 0x24, 0x28, 0x2c, 0x30, 0x34, 0x38, 0x3c, 0x40, 0x44, 0x48, 0x4c, 0x50,
          0x54, 0x58] ∧
    ∃ m, m ≤ wait_cycles ∧
      opsSince (Device.launched dpi insn_phy_addr insn_count wait_cycles w)
          (Device.polled dpi insn_phy_addr insn_count wait_cycles w)
        = pollOps dpi (Device.launched dpi insn_phy_addr insn_count wait_cycles w).sim m ∧
      readsOf (opsSince w (Device.polled dpi insn_phy_addr insn_count wait_cycles w))
        = List.replicate m 0x00 ∧
      readsOf (opsSince w (Device.Run dpi insn_phy_addr insn_count wait_cycles w).2)
        = List.replicate m 0x00 ++ [0x04, 0x24, 0x28, 0x2c, 0x30, 0x34, 0x38, 0x3c, 0x40,
            0x44, 0x48, 0x4c, 0x50, 0x54, 0x58] := by
  obtain ⟨m, hm, ht⟩ := waitLoop_shape dpi wait_cycles
    (Device.launched dpi insn_phy_addr insn_count wait_cycles w)
  have hp : (Device.polled dpi insn_phy_addr insn_count wait_cycles w).trace
      = w.trace ++ (Op.SimResume :: [Op.WriteReg 0x04 0, Op.WriteReg 0x08 insn_count,
          Op.WriteReg 0x0c insn_phy_addr,
          Op.WriteReg 0x10 0, Op.WriteReg 0x14 0, Op.WriteReg 0x18 0, Op.WriteReg 0x1c 0,
          Op.WriteReg 0x20 0, Op.WriteReg 0x24 0, Op.WriteReg 0x28 0, Op.WriteReg 0x2c 0,
          Op.WriteReg 0x30 0, Op.WriteReg 0x34 0, Op.WriteReg 0x38 0, Op.WriteReg 0x3c 0,
          Op.WriteReg 0x40 0, Op.WriteReg 0x44 0, Op.WriteReg 0x48 0, Op.WriteReg 0x4c 0,
          Op.WriteReg 0x50 0, Op.WriteReg 0x54 0, Op.WriteReg 0x58 0, Op.WriteReg 0x00 0x1]
        ++ pollOps dpi (Device.launched dpi insn_phy_addr insn_count wait_cycles w).sim m) := by
    rw [Device.polled, ht, launched_trace]
    simp [List.append_assoc]
  have hb : readsOf (opsSince (Device.polled dpi insn_phy_addr insn_count wait_cycles w)
        (Device.Run dpi insn_phy_addr insn_count wait_cycles w).2) = readbackAddrs := by
    rw [opsSince_of_trace _ _ _ (by rw [Run_world, readback_trace, List.append_assoc])]
    simp only [readsOf_append, (readbackOps_obs dpi _).1]
    simp [readsOf]
  have hpr : readsOf (opsSince w (Device.polled dpi insn_phy_addr insn_count wait_cycles w))
      = List.replicate m 0x00 := by
    rw [opsSince_of_trace _ _ _ hp]
    simp only [readsOf_append, (pollOps_obs dpi _ _).1]
    simp [readsOf]
  refine ⟨hb, m, hm, opsSince_of_trace _ _ _ ht, hpr, ?_⟩
  have hrun : (Device.Run dpi insn_phy_addr insn_count wait_cycles w).2.trace
      = w.trace ++ (opsSince w (Device.polled dpi insn_phy_addr insn_count wait_cycles w)
          ++ (List.zipWith Op.ReadReg readbackAddrs
              (readbackVals dpi (Device.polled dpi insn_phy_addr insn_count wait_cycles w).sim)
            ++ [Op.SimWait])) := by
    rw [Run_world, readback_trace, opsSince_of_trace _ _ _ hp, hp]
    simp [List.append_assoc]
  rw [opsSince_of_trace _ _ _ hrun, readsOf_append, hpr, readsOf_append,
    (readbackOps_obs dpi _).1]
  simp [readsOf, readbackAddrs]

/-- C9: for every `insn_phy_addr`, `insn_count` and `wait_cycles`, among the
register writes of `Launch` (and so of the whole `Run`) each offset `0x08,
0x0c, 0x10, ..., 0x58` occurs exactly once, with value `insn_count` at `0x08`,
`insn_phy_addr` at `0x0c` and `0` at every other one of them. -/
theorem Launch_config_values (dpi : DPIModuleNode σ) (insn_phy_addr insn_count wait_cycles : Nat)
    (w : World σ) (k : Fin 21) :
    (writesOf (opsSince w (Device.Launch dpi insn_phy_addr insn_count wait_cycles w))).filter
        (fun p => p.1 == 0x08 + 4 * k.val)
      = [(0x08 + 4 * k.val,
          if 0x08 + 4 * k.val = 0x08 then insn_count
          else if 0x08 + 4 * k.val = 0x0c then insn_phy_addr else 0)] ∧
    (writesOf (opsSince w (Device.Run dpi insn_phy_addr insn_count wait_cycles w).2)).filter
        (fun p => p.1 == 0x08 + 4 * k.val)
      = [(0x08 + 4 * k.val,
          if 0x08 + 4 * k.val = 0x08 then insn_count
          else if 0x08 + 4 * k.val = 0x0c then insn_phy_addr else 0)] := by
  rw [Run_writes, opsSince_of_trace _ _ _ (Launch_trace dpi insn_phy_addr insn_count wait_cycles w)]
  fin_cases k <;> simp [writesOf, List.filter]

theorem toInt32_exact (c : Int) (v : Nat) (hlo : -2147483648 ≤ c) (hhi : c + v < 2147483648) :
    toInt32 ((toUInt32 c + v) % 4294967296) = c + v := by
  unfold toInt32 toUInt32
  have h1 : ((c % 4294967296).toNat : Int) = c % 4294967296 :=
    Int.toNat_of_nonneg (Int.emod_nonneg _ (by norm_num))
  simp only [Nat.mod_mod]
  split
  · rename_i h
    have h' : (((((c % 4294967296).toNat + v) % 4294967296 : Nat)) : Int) < 2147483648 := by
      exact_mod_cast h
    push_cast at h' ⊢
    rw [h1] at h' ⊢
    omega
  · rename_i h
    have h' : ¬ ((((((c % 4294967296).toNat + v) % 4294967296 : Nat)) : Int) < 2147483648) := by
      exact_mod_cast h
    push_cast at h' ⊢
    rw [h1] at h' ⊢
    omega

theorem toUInt32_toInt32 (u : Nat) : toUInt32 (toInt32 u) = u % 4294967296 := by
  unfold toInt32 toUInt32
  split <;> omega

theorem toInt32_add_add (c : Int) (d1 d2 : Nat) :
    toInt32 ((toUInt32 (toInt32 ((toUInt32 c + d1) % 4294967296)) + d2) % 4294967296)
      = toInt32 ((toUInt32 c + (d1 + d2)) % 4294967296) := by
  rw [toUInt32_toInt32]
  congr 1
  omega

theorem get_put_same (p : Profiler) (i : Fin 15) (v : Int) : (p.put i.val v).get i.val = v := by
  simp [Profiler.put, Profiler.get]

theorem get_put_other (p : Profiler) (idx i : Nat) (v : Int) (h : idx ≠ i) :
    (p.put idx v).get i = p.get i := by
  unfold Profiler.put Profiler.get
  by_cases h1 : idx < 15 <;> by_cases h2 : i < 15 <;> simp [h1, h2, Function.update, Fin.ext_iff]
  intro h3; exact absurd h3.symm h

theorem get_Update_same (p : Profiler) (i : Fin 15) (v : Nat) :
    (p.Update i.val v).get i.val = toInt32 ((toUInt32 (p.get i.val) + v) % 4294967296) := by
  rw [Profiler.Update, get_put_same]

theorem Run_counters (dpi : DPIModuleNode σ) (a c wc : Nat) (w : World σ) (i : Fin 15) :
    (Device.Run dpi a c wc w).2.prof.get i.val
      = toInt32 ((toUInt32 (w.prof.get i.val)
          + (readbackVals dpi (Device.polled dpi a c wc w).sim).getD i.val 0) % 4294967296) := by
  have h := readback_counters dpi (Device.polled dpi a c wc w) i
  rw [(polled_prof dpi a c wc w).1] at h
  simpa [Profiler.get, Run_world] using h

theorem scaled_eq (p : Profiler) (idx : Nat) :
    p.scaled idx = (8 * (p.get idx % 4294967296)) % 4294967296 := by
  unfold Profiler.scaled toUInt32
  have h1 : ((p.get idx % 4294967296).toNat : Int) = p.get idx % 4294967296 :=
    Int.toNat_of_nonneg (Int.emod_nonneg _ (by norm_num))
  push_cast
  rw [h1]
  omega

theorem scaled_exact_iff (p : Profiler) (idx : Nat) :
    p.scaled idx = 8 * p.get idx ↔ 0 ≤ p.get idx ∧ p.get idx < 536870912 := by
  rw [scaled_eq]
  omega

/-- C5, amended: after one `Run`, the readback has read offset `0x04` for
counter `0` and offset `0x24 + 4 * (i - 1)` for counter `i` in `1..14`, the
same registers in every run, and counter `i` holds the signed 32-bit sum of
its previous value and the value read there (the value is added, not stored);
when the previous value plus the value read is below `2^31` the counter has
been increased by exactly the value read. -/
theorem Run_readback_accumulates (dpi : DPIModuleNode σ)
    (insn_phy_addr insn_count wait_cycles : Nat) (w : World σ) (i : Fin 15) :
    opsSince (Device.polled dpi insn_phy_addr insn_count wait_cycles w)
        (Device.Run dpi insn_phy_addr insn_count wait_cycles w).2
      = List.zipWith Op.ReadReg readbackAddrs
          (readbackVals dpi (Device.polled dpi insn_phy_addr insn_count wait_cycles w).sim)
        ++ [Op.SimWait] ∧
    readbackAddrs.getD i.val 0 = (if i.val = 0 then 0x04 else 0x24 + 4 * (i.val - 1)) ∧
    (Device.Run dpi insn_phy_addr insn_count wait_cycles w).2.prof.get i.val
      = toInt32 ((toUInt32 (w.prof.get i.val)
          + (readbackVals dpi
              (Device.polled dpi insn_phy_addr insn_count wait_cycles w).sim).getD i.val 0)
          % 4294967296) ∧
    (-2147483648 ≤ w.prof.get i.val →
      w.prof.get i.val
          + (readbackVals dpi
              (Device.polled dpi insn_phy_addr insn_count wait_cycles w).sim).getD i.val 0
        < 2147483648 →
      (Device.Run dpi insn_phy_addr insn_count wait_cycles w).2.prof.get i.val
        = w.prof.get i.val
          + (readbackVals dpi
              (Device.polled dpi insn_phy_addr insn_count wait_cycles w).sim).getD i.val 0) := by
  refine ⟨?_, ?_, Run_counters dpi _ _ _ w i, ?_⟩
  · exact opsSince_of_trace _ _ _ (by rw [Run_world, readback_trace, List.append_assoc])
  · fin_cases i <;> simp [readbackAddrs]
  · intro hlo hhi
    rw [Run_counters]
    exact toInt32_exact _ _ hlo hhi

/-- C5, amended, at a concrete run: on a bank whose counter `0` already holds
`41` and a backend whose registers all read `0x1`, the readback reads `1`
from offset `0x04` and counter `0` goes from `41` to `41 + 1 = 42`: the value
read is added to the previous value, not stored over it. -/
theorem Run_readback_accumulates_from_41 :
    (World.later ()).prof.get 0 = 41 ∧
      (readbackVals neverReady (Device.polled neverReady 0 0 5 (World.later ())).sim).getD 0 0
        = 1 ∧
      (Device.Run neverReady 0 0 5 (World.later ())).2.prof.get 0
        = (World.later ()).prof.get 0
          + (readbackVals neverReady
              (Device.polled neverReady 0 0 5 (World.later ())).sim).getD 0 0 ∧
      (Device.Run neverReady 0 0 5 (World.later ())).2.prof.get 0 = 42 :=
  ⟨by decide, by decide,
    (Run_readback_accumulates neverReady 0 0 5 (World.later ()) 0).2.2.2 (by decide) (by decide),
    ((Run_readback_accumulates neverReady 0 0 5 (World.later ()) 0).2.2.2
      (by decide) (by decide)).trans (by decide)⟩

/-- C5 as stated fails: with counter `0` at `2147483647` and a backend whose
registers all read `0x1`, the readback reads `1` from offset `0x04` and
counter `0` ends at `-2147483648`: it has not been increased by the value
read. -/
theorem Run_readback_wraps :
    (World.withBank () (bankAfter 0 2147483647)).prof.get 0 = 2147483647 ∧
      (opsSince (Device.polled neverReady 0 0 0 (World.withBank () (bankAfter 0 2147483647)))
        (Device.Run neverReady 0 0 0 (World.withBank () (bankAfter 0 2147483647))).2).head?
        = some (Op.ReadReg 0x04 1) ∧
      (Device.Run neverReady 0 0 0 (World.withBank () (bankAfter 0 2147483647))).2.prof.get 0
        = -2147483648 ∧
      ¬ ((Device.Run neverReady 0 0 0 (World.withBank () (bankAfter 0 2147483647))).2.prof.get 0
        = (World.withBank () (bankAfter 0 2147483647)).prof.get 0 + 1) := by
  have h0 : (World.withBank () (bankAfter 0 2147483647)).prof.get 0 = 2147483647 := by decide
  have h1 : (Device.Run neverReady 0 0 0 (World.withBank () (bankAfter 0 2147483647))).2.prof.get 0
      = -2147483648 := by
    have h : (Device.Run neverReady 0 0 0
          (World.withBank () (bankAfter 0 2147483647))).2.prof.get 0
        = toInt32 ((toUInt32 ((World.withBank () (bankAfter 0 2147483647)).prof.get 0)
            + (readbackVals neverReady (Device.polled neverReady 0 0 0
                (World.withBank () (bankAfter 0 2147483647))).sim).getD 0 0) % 4294967296) :=
      Run_counters neverReady 0 0 0 (World.withBank () (bankAfter 0 2147483647)) 0
    rw [h]
    decide
  refine ⟨h0, ?_, h1, ?_⟩
  · rw [opsSince_of_trace _ _ _ (by rw [Run_world, readback_trace, List.append_assoc])]
    decide
  · rw [h1, h0]; decide

/-- C6, amended: for every state of the counters, each of the five `*_nbytes`
numbers of `AsJSON` is `(8 * u) mod 2^32`, with `u` the raw counter (index 2,
3, 4, 5, 6) modulo `2^32`; it is exactly 8 times the raw counter if and only
if `0 ≤ raw < 2^29`; each of the other ten numbers is its raw counter. -/
theorem AsJSON_scaling (p : Profiler) :
    (p.exported "acc_load_nbytes" = some ((8 * (p.get 2 % 4294967296)) % 4294967296) ∧
      p.exported "inp_load_nbytes" = some ((8 * (p.get 3 % 4294967296)) % 4294967296) ∧
      p.exported "wgt_load_nbytes" = some ((8 * (p.get 4 % 4294967296)) % 4294967296) ∧
      p.exported "uop_load_nbytes" = some ((8 * (p.get 5 % 4294967296)) % 4294967296) ∧
      p.exported "out_store_nbytes" = some ((8 * (p.get 6 % 4294967296)) % 4294967296)) ∧
    ((p.exported "acc_load_nbytes" = some (8 * p.get 2)
        ↔ 0 ≤ p.get 2 ∧ p.get 2 < 536870912) ∧
      (p.exported "inp_load_nbytes" = some (8 * p.get 3)
        ↔ 0 ≤ p.get 3 ∧ p.get 3 < 536870912) ∧
      (p.exported "wgt_load_nbytes" = some (8 * p.get 4)
        ↔ 0 ≤ p.get 4 ∧ p.get 4 < 536870912) ∧
      (p.exported "uop_load_nbytes" = some (8 * p.get 5)
        ↔ 0 ≤ p.get 5 ∧ p.get 5 < 536870912) ∧
      (p.exported "out_store_nbytes" = some (8 * p.get 6)
        ↔ 0 ≤ p.get 6 ∧ p.get 6 < 536870912)) ∧
    (p.exported "cycle_counter" = some (p.get 0) ∧
      p.exported "acc_wr_counter" = some (p.get 1) ∧
      p.exported "alu_counter" = some (p.get 7) ∧
      p.exported "gemm_counter" = some (p.get 8) ∧
      p.exported "idle_ld_cycles" = some (p.get 9) ∧
      p.exported "idle_st_cycles" = some (p.get 10) ∧
      p.exported "idle_cp_cycles" = some (p.get 11) ∧
      p.exported "stall_ld_cycles" = some (p.get 12) ∧
      p.exported "stall_st_cycles" = some (p.get 13) ∧
      p.exported "stall_cp_cycles" = some (p.get 14)) := by
  have e2 : p.exported "acc_load_nbytes" = some (p.scaled 2) := by
    simp [Profiler.exported, Profiler.AsJSON_fields, List.lookup]
  have e3 : p.exported "inp_load_nbytes" = some (p.scaled 3) := by
    simp [Profiler.exported, Profiler.AsJSON_fields, List.lookup]
  have e4 : p.exported "wgt_load_nbytes" = some (p.scaled 4) := by
    simp [Profiler.exported, Profiler.AsJSON_fields, List.lookup]
  have e5 : p.exported "uop_load_nbytes" = some (p.scaled 5) := by
    simp [Profiler.exported, Profiler.AsJSON_fields, List.lookup]
  have e6 : p.exported "out_store_nbytes" = some (p.scaled 6) := by
    simp [Profiler.exported, Profiler.AsJSON_fields, List.lookup]
  refine ⟨⟨?_, ?_, ?_, ?_, ?_⟩, ⟨?_, ?_, ?_, ?_, ?_⟩, ?_⟩
  · rw [e2, scaled_eq]
  · rw [e3, scaled_eq]
  · rw [e4, scaled_eq]
  · rw [e5, scaled_eq]
  · rw [e6, scaled_eq]
  · rw [e2, Option.some_inj]; exact scaled_exact_iff p 2
  · rw [e3, Option.some_inj]; exact scaled_exact_iff p 3
  · rw [e4, Option.some_inj]; exact scaled_exact_iff p 4
  · rw [e5, Option.some_inj]; exact scaled_exact_iff p 5
  · rw [e6, Option.some_inj]; exact scaled_exact_iff p 6
  · simp [Profiler.exported, Profiler.AsJSON_fields, List.lookup]

/-- C6 as stated fails: with counter `2` at `2^29 = 536870912` the number
exported as `acc_load_nbytes` is `0`, not `8 * 536870912`. -/
theorem AsJSON_scaling_wraps :
    (bankAfter 2 536870912).get 2 = 536870912 ∧
      (bankAfter 2 536870912).exported "acc_load_nbytes" = some 0 ∧
      ¬ ((bankAfter 2 536870912).exported "acc_load_nbytes"
        = some (8 * (bankAfter 2 536870912).get 2)) := by
  decide

/-- C7, amended: for every index `i` in `0..14`, every counter state and all
`d1`, `d2`, after `Update(i, d1)` then `Update(i, d2)` counter `i` is the
signed 32-bit value of its starting value plus `d1 + d2` modulo `2^32` (the
second update adds to the first); it equals the integer sum whenever the
starting value is an `int` and the sum is below `2^31`. -/
theorem Update_twice (p : Profiler) (i : Fin 15) (d1 d2 : Nat) :
    ((p.Update i.val d1).Update i.val d2).get i.val
      = toInt32 ((toUInt32 (p.get i.val) + (d1 + d2)) % 4294967296) ∧
    (-2147483648 ≤ p.get i.val → p.get i.val + (d1 + d2) < 2147483648 →
      ((p.Update i.val d1).Update i.val d2).get i.val = p.get i.val + (d1 + d2)) := by
  have h : ((p.Update i.val d1).Update i.val d2).get i.val
      = toInt32 ((toUInt32 (p.get i.val) + (d1 + d2)) % 4294967296) := by
    rw [get_Update_same, get_Update_same, toInt32_add_add]
  refine ⟨h, fun hlo hhi => ?_⟩
  rw [h]
  have := toInt32_exact (p.get i.val) (d1 + d2) hlo (by push_cast; exact hhi)
  simpa using this

/-- C7, amended, at a concrete bank: from counter `3` at `0`, `Update(3, 5)`
then `Update(3, 7)` leaves it at `0 + (5 + 7)`. -/
theorem Update_twice_fresh :
    ((Profiler.new.Update 3 5).Update 3 7).get 3 = Profiler.new.get 3 + (5 + 7) :=
  (Update_twice Profiler.new 3 5 7).2 (by decide) (by decide)

/-- C7 as stated fails: from counter `0` at `0`, `Update(0, 2147483647)` then
`Update(0, 1)` leaves it at `-2147483648`, not at the integer sum
`2147483648`. -/
theorem Update_twice_wraps :
    Profiler.new.get 0 = 0 ∧
      ((Profiler.new.Update 0 2147483647).Update 0 1).get 0 = -2147483648 ∧
      ¬ (((Profiler.new.Update 0 2147483647).Update 0 1).get 0
        = Profiler.new.get 0 + (2147483647 + 1)) := by
  decide

/-- C8, amended: for every counter state, every `Update(idx, v)` whose counter
is an `int` with `counter + v` below `2^31` (no signed overflow) leaves every
counter `i` at least as large as before; counter `idx` becomes exactly
`counter + v`. -/
theorem Update_monotone (p : Profiler) (idx i v : Nat) (hidx : idx < 15)
    (hlo : -2147483648 ≤ p.get idx) (hhi : p.get idx + v < 2147483648) :
    p.get i ≤ (p.Update idx v).get i ∧ (p.Update idx v).get idx = p.get idx + v := by
  have hsame : (p.Update idx v).get idx = p.get idx + v := by
    have h := get_Update_same p ⟨idx, hidx⟩ v
    simp only at h
    rw [h]
    exact toInt32_exact _ _ hlo hhi
  refine ⟨?_, hsame⟩
  by_cases h : idx = i
  · subst h
    rw [hsame]
    omega
  · rw [Profiler.Update, get_put_other _ _ _ _ h]

/-- C8, amended, at a concrete bank: `Update(0, 1)` on a bank whose counter
`0` is `41` does not decrease counter `0`. -/
theorem Update_monotone_small :
    (bankAfter 0 41).get 0 ≤ ((bankAfter 0 41).Update 0 1).get 0 ∧
      ((bankAfter 0 41).Update 0 1).get 0 = (bankAfter 0 41).get 0 + 1 :=
  Update_monotone (bankAfter 0 41) 0 0 1 (by decide) (by decide) (by decide)

/-- C8 as stated fails: with counter `0` at `2147483647`, `Update(0, 1)`
leaves it at `-2147483648`, below its value before the call. -/
theorem Update_decreases :
    (bankAfter 0 2147483647).get 0 = 2147483647 ∧
      ((bankAfter 0 2147483647).Update 0 1).get 0 = -2147483648 ∧
      ¬ ((bankAfter 0 2147483647).get 0 ≤ ((bankAfter 0 2147483647).Update 0 1).get 0) := by
  decide

theorem count_SimFinish_simOpsOf (ops : List Op) :
    (simOpsOf ops).count Op.SimFinish = ops.count Op.SimFinish := by
  induction ops with
  | nil => rfl
  | cons op l ih => cases op <;> simp [simOpsOf, List.count_cons, ih]

theorem Run_trace (dpi : DPIModuleNode σ) (a c wc : Nat) (w : World σ) :
    ∃ m, m ≤ wc ∧ (Device.Run dpi a c wc w).2.trace = w.trace ++
      (Op.SimResume :: [Op.WriteReg 0x04 0, Op.WriteReg 0x08 c, Op.WriteReg 0x0c a,
          Op.WriteReg 0x10 0, Op.WriteReg 0x14 0, Op.WriteReg 0x18 0, Op.WriteReg 0x1c 0,
          Op.WriteReg 0x20 0, Op.WriteReg 0x24 0, Op.WriteReg 0x28 0, Op.WriteReg 0x2c 0,
          Op.WriteReg 0x30 0, Op.WriteReg 0x34 0, Op.WriteReg 0x38 0, Op.WriteReg 0x3c 0,
          Op.WriteReg 0x40 0, Op.WriteReg 0x44 0, Op.WriteReg 0x48 0, Op.WriteReg 0x4c 0,
          Op.WriteReg 0x50 0, Op.WriteReg 0x54 0, Op.WriteReg 0x58 0, Op.WriteReg 0x00 0x1]
        ++ pollOps dpi (Device.launched dpi a c wc w).sim m
        ++ List.zipWith Op.ReadReg readbackAddrs
            (readbackVals dpi (Device.polled dpi a c wc w).sim)
        ++ [Op.SimWait]) := by
  obtain ⟨m, hle, hm⟩ := waitLoop_shape dpi wc (Device.launched dpi a c wc w)
  refine ⟨m, hle, ?_⟩
  rw [Run_world, readback_trace, Device.polled, hm, launched_trace]
  simp [List.append_assoc]

theorem Run_simOps (dpi : DPIModuleNode σ) (a c wc : Nat) (w : World σ) :
    ∃ ops, (Device.Run dpi a c wc w).2.trace = w.trace ++ ops ∧
      simOpsOf ops = [Op.SimResume, Op.SimWait] := by
  obtain ⟨m, _, hm⟩ := Run_trace dpi a c wc w
  refine ⟨_, hm, ?_⟩
  simp only [simOpsOf_append, (pollOps_obs dpi _ m).2.2, (readbackOps_obs dpi _).2.2]
  simp [simOpsOf]

theorem runAll_simOps (dpi : DPIModuleNode σ) (runs : List (Nat × Nat × Nat)) (w : World σ) :
    ∃ ops, (runAll dpi runs w).trace = w.trace ++ ops ∧
      simOpsOf ops = runSimOps runs.length := by
  induction runs generalizing w with
  | nil => exact ⟨[], by simp [runAll], rfl⟩
  | cons r rs ih =>
    obtain ⟨ops1, h1, s1⟩ := Run_simOps dpi r.1 r.2.1 r.2.2 w
    obtain ⟨ops2, h2, s2⟩ := ih (Device.Run dpi r.1 r.2.1 r.2.2 w).2
    refine ⟨ops1 ++ ops2, ?_, ?_⟩
    · rw [runAll, h2, h1, List.append_assoc]
    · rw [simOpsOf_append, s1, s2]
      simp [runSimOps]

theorem count_SimFinish_runSimOps (n : Nat) : (runSimOps n).count Op.SimFinish = 0 := by
  induction n with
  | zero => rfl
  | succ n ih => simp [runSimOps, List.count_cons, ih]

/-- C10: for every list of `Run` calls (any number `n ≥ 0` of them, any
arguments) and every backend, the calls of `DPILoader::Init`, the runs and the
destructor are the calls of `Init` and of all the runs, which hold no
`SimFinish`, followed by `SimResume` and `SimFinish`: the simulation-control
calls are `SimLaunch`, `SimWait`, then `SimResume`, `SimWait` for each run,
then `SimResume`, `SimFinish`; there is exactly one `SimFinish` and it is the
last call of the whole sequence. -/
theorem session_one_SimFinish (dpi : DPIModuleNode σ) (runs : List (Nat × Nat × Nat))
    (w : World σ) :
    opsSince w (session dpi runs w)
        = opsSince w (runAll dpi runs (DPILoader.Init dpi w)) ++ [Op.SimResume, Op.SimFinish] ∧
      Op.SimFinish ∉ opsSince w (runAll dpi runs (DPILoader.Init dpi w)) ∧
      simOpsOf (opsSince w (session dpi runs w))
        = Op.SimLaunch :: Op.SimWait :: (runSimOps runs.length ++ [Op.SimResume, Op.SimFinish]) ∧
      (opsSince w (session dpi runs w)).count Op.SimFinish = 1 ∧
      (opsSince w (session dpi runs w)).getLast? = some Op.SimFinish := by
  obtain ⟨ops, h, s⟩ := runAll_simOps dpi runs (DPILoader.Init dpi w)
  have hi : (DPILoader.Init dpi w).trace = w.trace ++ [Op.SimLaunch, Op.SimWait] := by
    simp [DPILoader.Init, callSimWait, callSimLaunch]
  have hr : (runAll dpi runs (DPILoader.Init dpi w)).trace
      = w.trace ++ ([Op.SimLaunch, Op.SimWait] ++ ops) := by
    rw [h, hi, List.append_assoc]
  have hs : (session dpi runs w).trace
      = w.trace ++ (([Op.SimLaunch, Op.SimWait] ++ ops) ++ [Op.SimResume, Op.SimFinish]) := by
    simp [session, DPILoader.destroy, callSimFinish, callSimResume, hr]
  have hc : ([Op.SimLaunch, Op.SimWait] ++ ops).count Op.SimFinish = 0 := by
    rw [← count_SimFinish_simOpsOf, simOpsOf_append, s]
    simp [simOpsOf, List.count_cons, count_SimFinish_runSimOps]
  rw [opsSince_of_trace _ _ _ hs, opsSince_of_trace _ _ _ hr]
  refine ⟨rfl, ?_, ?_, ?_, ?_⟩
  · exact List.count_eq_zero.mp hc
  · rw [simOpsOf_append, simOpsOf_append, s]
    simp [simOpsOf]
  · rw [List.count_append, hc]
    decide
  · rw [show ([Op.SimLaunch, Op.SimWait] ++ ops) ++ [Op.SimResume, Op.SimFinish]
        = (([Op.SimLaunch, Op.SimWait] ++ ops) ++ [Op.SimResume]) ++ [Op.SimFinish] by simp]
    exact List.getLast?_concat _

theorem exported_values (p : Profiler) :
    p.exported "cycle_counter" = some (p.get 0) ∧
      p.exported "acc_wr_counter" = some (p.get 1) ∧
      p.exported "acc_load_nbytes" = some (p.scaled 2) ∧
      p.exported "inp_load_nbytes" = some (p.scaled 3) ∧
      p.exported "wgt_load_nbytes" = some (p.scaled 4) ∧
      p.exported "uop_load_nbytes" = some (p.scaled 5) ∧
      p.exported "out_store_nbytes" = some (p.scaled 6) ∧
      p.exported "alu_counter" = some (p.get 7) ∧
      p.exported "gemm_counter" = some (p.get 8) ∧
      p.exported "idle_ld_cycles" = some (p.get 9) ∧
      p.exported "idle_st_cycles" = some (p.get 10) ∧
      p.exported "idle_cp_cycles" = some (p.get 11) ∧
      p.exported "stall_ld_cycles" = some (p.get 12) ∧
      p.exported "stall_st_cycles" = some (p.get 13) ∧
      p.exported "stall_cp_cycles" = some (p.get 14) := by
  simp [Profiler.exported, Profiler.AsJSON_fields, List.lookup]

/-- C11: for every counter state the export of `AsJSON` has exactly 15
fields; their names are the 15 names of the schema, each exactly once; the
schema assigns the indices `0, 1, ..., 14` in its order; the number of each
field is computed from the counter the schema assigns to its name, as the
counter itself or, for the indices 2..6, as the unsigned 32-bit product of
the counter and 8; it is the same on two banks that agree on that counter,
it is unchanged by a store to any other counter, and it changes when that
counter goes from `0` to `1`. -/
theorem AsJSON_schema :
    (∀ p : Profiler, p.AsJSON_fields.length = 15) ∧
      (∀ p : Profiler, (p.AsJSON_fields.map Prod.fst).Perm (exportSchema.map Prod.fst)) ∧
      (∀ p : Profiler, (p.AsJSON_fields.map Prod.fst).Nodup) ∧
      exportSchema.map Prod.snd = List.range 15 ∧
      (∀ e ∈ exportSchema, ∀ p : Profiler,
        p.exported e.1 = some (if 2 ≤ e.2 ∧ e.2 ≤ 6
          then (((toUInt32 (p.get e.2) * 8) % 4294967296 : Nat) : Int) else p.get e.2)) ∧
      (∀ e ∈ exportSchema, ∀ p q : Profiler, p.get e.2 = q.get e.2 →
        p.exported e.1 = q.exported e.1) ∧
      (∀ e ∈ exportSchema, ∀ (p : Profiler) (j : Nat) (v : Int), j ≠ e.2 →
        (p.put j v).exported e.1 = p.exported e.1) ∧
      (∀ e ∈ exportSchema, ((bankOf 0).put e.2 1).exported e.1 ≠ (bankOf 0).exported e.1) := by
  have hval : ∀ e ∈ exportSchema, ∀ p : Profiler,
      p.exported e.1 = some (if 2 ≤ e.2 ∧ e.2 ≤ 6
        then (((toUInt32 (p.get e.2) * 8) % 4294967296 : Nat) : Int) else p.get e.2) := by
    intro e he p
    have hv := exported_values p
    simp only [exportSchema, List.mem_cons, List.mem_singleton, List.not_mem_nil, or_false] at he
    rcases he with h | h | h | h | h | h | h | h | h | h | h | h | h | h | h <;> subst h <;>
      simp [hv, Profiler.scaled]
  have hdep : ∀ e ∈ exportSchema, ∀ p q : Profiler, p.get e.2 = q.get e.2 →
      p.exported e.1 = q.exported e.1 := by
    intro e he p q hpq
    rw [hval e he p, hval e he q, hpq]
  refine ⟨fun p => rfl, fun p => ?_, fun p => ?_, by decide, hval, hdep, ?_, by decide⟩
  · simp only [Profiler.AsJSON_fields, exportSchema, List.map]
    decide
  · simp only [Profiler.AsJSON_fields, List.map]
    decide
  · intro e he p j v hj
    exact hdep e he _ _ (get_put_other p j e.2 v hj)

theorem ClearAll_counters (p : Profiler) (i : Fin 15) : p.ClearAll.counters_ i = 0 := by
  fin_cases i <;>
    simp [Profiler.ClearAll, Profiler.clearFrom, Profiler.num_counters_, Profiler.put,
      Function.update]

theorem ClearAll_eq (p : Profiler) : p.ClearAll = bankOf 0 := by
  have h : p.ClearAll.counters_ = fun _ => 0 := funext (ClearAll_counters p)
  cases hp : p.ClearAll with
  | mk c => rw [hp] at h; simp only at h; rw [h]; rfl

set_option maxRecDepth 1000000 in
theorem zero_bank_text :
    (bankOf 0).AsJSON = "\x7b\n \"cycle_counter\":0,\n \"inp_load_nbytes\":0,\n \"wgt_load_nbytes\":0,\n \"acc_load_nbytes\":0,\n \"uop_load_nbytes\":0,\n \"out_store_nbytes\":0,\n \"gemm_counter\":0,\n \"alu_counter\":0,\n \"acc_wr_counter\":0,\n \"idle_ld_cycles\":0,\n \"idle_st_cycles\":0,\n \"idle_cp_cycles\":0,\n \"stall_ld_cycles\":0,\n \"stall_st_cycles\":0,\n \"stall_cp_cycles\":0\n\x7d\n" := by
  decide

/-- C12: for every counter state, `ClearAll` sets each of the 15 counters to
`0`, and the export of `AsJSON` that follows has 15 fields whose numbers are
all `0`, the five scaled ones included; the text returned is the one with
`0` after every field name. -/
theorem ClearAll_AsJSON_zero (p : Profiler) :
    (∀ i : Fin 15, p.ClearAll.counters_ i = 0) ∧
      p.ClearAll.AsJSON_fields.length = 15 ∧
      p.ClearAll.AsJSON_fields.map Prod.snd = List.replicate 15 0 ∧
      (∀ e ∈ exportSchema, p.ClearAll.exported e.1 = some 0) ∧
      p.ClearAll.AsJSON = "\x7b\n \"cycle_counter\":0,\n \"inp_load_nbytes\":0,\n \"wgt_load_nbytes\":0,\n \"acc_load_nbytes\":0,\n \"uop_load_nbytes\":0,\n \"out_store_nbytes\":0,\n \"gemm_counter\":0,\n \"alu_counter\":0,\n \"acc_wr_counter\":0,\n \"idle_ld_cycles\":0,\n \"idle_st_cycles\":0,\n \"idle_cp_cycles\":0,\n \"stall_ld_cycles\":0,\n \"stall_st_cycles\":0,\n \"stall_cp_cycles\":0\n\x7d\n" := by
  refine ⟨ClearAll_counters p, rfl, ?_, ?_, ?_⟩
  · rw [ClearAll_eq]; decide
  · rw [ClearAll_eq]; decide
  · rw [ClearAll_eq]; exact zero_bank_text

/-- C13: for every counter state, the call of `AsJSON` leaves each of the 15
counters as it was, and a second call right after the first returns the same
text. -/
theorem AsJSON_pure_read (p : Profiler) :
    (∀ i : Fin 15, p.callAsJSON.2.counters_ i = p.counters_ i) ∧
      p.callAsJSON.2 = p ∧
      p.callAsJSON.2.callAsJSON.1 = p.callAsJSON.1 :=
  ⟨fun _ => rfl, rfl, rfl⟩

/-- C14: `Run` returns `0` for every `insn_phy_addr`, `insn_count`,
`wait_cycles`, starting world and backend, whether the polling loop saw the
finished bit or ran out; two runs on any two backends return the same
value. -/
theorem Run_returns_zero (dpi : DPIModuleNode σ) (insn_phy_addr insn_count wait_cycles : Nat)
    (w : World σ) :
    (Device.Run dpi insn_phy_addr insn_count wait_cycles w).1 = 0 ∧
      ∀ (τ : Type) (dpi2 : DPIModuleNode τ) (w2 : World τ),
        (Device.Run dpi2 insn_phy_addr insn_count wait_cycles w2).1
          = (Device.Run dpi insn_phy_addr insn_count wait_cycles w).1 :=
  ⟨rfl, fun _ _ _ => rfl⟩

/-- The calls of a whole `Run`: `SimResume`, the writes of `Launch`, `m` polls
for some `m ≤ wait_cycles`, the readback reads, `SimWait`. -/
theorem Run_ops (dpi : DPIModuleNode σ) (a c wc : Nat) (w : World σ) :
    ∃ m, m ≤ wc ∧ opsSince w (Device.Run dpi a c wc w).2
      = Op.SimResume :: (launchCalls a c
          ++ pollOps dpi (Device.launched dpi a c wc w).sim m
          ++ List.zipWith Op.ReadReg readbackAddrs
              (readbackVals dpi (Device.polled dpi a c wc w).sim)
          ++ [Op.SimWait]) := by
  obtain ⟨m, hle, hm⟩ := Run_trace dpi a c wc w
  refine ⟨m, hle, ?_⟩
  rw [opsSince_of_trace _ _ _ hm]
  simp [launchCalls]

/-- C15: for every `Run` and every backend, the calls of the run are one
`SimResume`, then register writes and reads only, then one `SimWait`: the
run starts with `SimResume`, ends with `SimWait` after the last readback
read, and its simulation-control calls are these two and no other (no
`SimLaunch`, no `SimFinish`). -/
theorem Run_bracket (dpi : DPIModuleNode σ) (insn_phy_addr insn_count wait_cycles : Nat)
    (w : World σ) :
    ∃ mid : List Op,
      opsSince w (Device.Run dpi insn_phy_addr insn_count wait_cycles w).2
          = Op.SimResume :: (mid ++ [Op.SimWait]) ∧
        simOpsOf mid = [] ∧
        mid.getLast? = (List.zipWith Op.ReadReg readbackAddrs
          (readbackVals dpi
            (Device.polled dpi insn_phy_addr insn_count wait_cycles w).sim)).getLast? ∧
        simOpsOf (opsSince w (Device.Run dpi insn_phy_addr insn_count wait_cycles w).2)
          = [Op.SimResume, Op.SimWait] := by
  obtain ⟨m, _, hm⟩ := Run_ops dpi insn_phy_addr insn_count wait_cycles w
  refine ⟨launchCalls insn_phy_addr insn_count
      ++ pollOps dpi (Device.launched dpi insn_phy_addr insn_count wait_cycles w).sim m
      ++ List.zipWith Op.ReadReg readbackAddrs
          (readbackVals dpi (Device.polled dpi insn_phy_addr insn_count wait_cycles w).sim),
    ?_, ?_, ?_, ?_⟩
  · rw [hm]
  · simp only [simOpsOf_append, (pollOps_obs dpi _ m).2.2, (readbackOps_obs dpi _).2.2]
    simp [simOpsOf, launchCalls]
  · rw [List.getLast?_append]
    simp [readbackVals, readbackAddrs, readSeq]
  · rw [hm]
    simp [simOpsOf, launchCalls, simOpsOf_append, (pollOps_obs dpi _ m).2.2,
      (readbackOps_obs dpi _).2.2]

theorem Launch_writes (dpi : DPIModuleNode σ) (a c wc : Nat) (w : World σ) :
    writesOf (opsSince w (Device.Launch dpi a c wc w))
      = [(0x04, 0), (0x08, c), (0x0c, a), (0x10, 0), (0x14, 0), (0x18, 0), (0x1c, 0),
          (0x20, 0), (0x24, 0), (0x28, 0), (0x2c, 0), (0x30, 0), (0x34, 0), (0x38, 0),
          (0x3c, 0), (0x40, 0), (0x44, 0), (0x48, 0), (0x4c, 0), (0x50, 0), (0x54, 0),
          (0x58, 0), (0x00, 0x1)] := by
  rw [opsSince_of_trace _ _ _ (Launch_trace dpi a c wc w)]
  simp [writesOf]

/-- C16, amended: for every `insn_count` (and `insn_phy_addr`, `wait_cycles`),
`Launch` writes register offset `0x04` exactly once and the value written is
`0`; the instruction count `insn_count` is the value written to offset
`0x08`. The same holds for the writes of the whole `Run`. -/
theorem Launch_writes_zero_to_0x04 (dpi : DPIModuleNode σ)
    (insn_phy_addr insn_count wait_cycles : Nat) (w : World σ) :
    (writesOf (opsSince w (Device.Launch dpi insn_phy_addr insn_count wait_cycles w))).filter
        (fun p => p.1 == 0x04) = [(0x04, 0)] ∧
      (writesOf (opsSince w (Device.Launch dpi insn_phy_addr insn_count wait_cycles w))).filter
        (fun p => p.1 == 0x08) = [(0x08, insn_count)] ∧
      (writesOf (opsSince w (Device.Run dpi insn_phy_addr insn_count wait_cycles w).2)).filter
        (fun p => p.1 == 0x04) = [(0x04, 0)] := by
  rw [Launch_writes, Run_writes]
  simp [List.filter]

/-- C16 as stated fails: with `insn_count = 7`, the one write of `Launch` to
offset `0x04` has value `0`, not `7`; the `7` goes to offset `0x08`. -/
theorem Launch_0x04_not_insn_count :
    (writesOf (opsSince (World.start ()) (Device.Launch neverReady 0 7 0 (World.start ())))).filter
        (fun p => p.1 == 0x04) = [(0x04, 0)] ∧
      (0x04, 7) ∉ writesOf (opsSince (World.start ())
        (Device.Launch neverReady 0 7 0 (World.start ()))) ∧
      (0x08, 7) ∈ writesOf (opsSince (World.start ())
        (Device.Launch neverReady 0 7 0 (World.start ()))) := by
  decide

theorem bankOf_fields (v : Int) (h0 : 0 ≤ v) (h1 : v < 536870912) :
    (bankOf v).AsJSON_fields
      = [ ("cycle_counter", v), ("inp_load_nbytes", 8 * v), ("wgt_load_nbytes", 8 * v),
          ("acc_load_nbytes", 8 * v), ("uop_load_nbytes", 8 * v), ("out_store_nbytes", 8 * v),
          ("gemm_counter", v), ("alu_counter", v), ("acc_wr_counter", v),
          ("idle_ld_cycles", v), ("idle_st_cycles", v), ("idle_cp_cycles", v),
          ("stall_ld_cycles", v), ("stall_st_cycles", v), ("stall_cp_cycles", v) ] := by
  have hg : ∀ idx, idx < 15 → (bankOf v).get idx = v := by
    intro idx h; simp [bankOf, Profiler.get, h]
  have hs : ∀ idx, idx < 15 → (bankOf v).scaled idx = 8 * v := by
    intro idx h
    have := (scaled_exact_iff (bankOf v) idx).2 (by rw [hg idx h]; exact ⟨h0, h1⟩)
    rw [this, hg idx h]
  simp [Profiler.AsJSON_fields, hg, hs]

/-- C17, amended: exactly five of the fifteen counters, those at indices 2, 3,
4, 5 and 6, are scaled by the factor 8 (modulo `2^32`) in the export of
`AsJSON`, and the remaining ten are exported as their raw value; on a bank
whose counters all hold `v` with `0 < v < 2^29`, five fields export `8 * v`
and ten export `v`. -/
theorem AsJSON_five_scaled :
    (exportSchema.filter (fun e => decide (2 ≤ e.2 ∧ e.2 ≤ 6))).length = 5 ∧
      (exportSchema.filter (fun e => ! decide (2 ≤ e.2 ∧ e.2 ≤ 6))).length = 10 ∧
      (∀ e ∈ exportSchema, ∀ p : Profiler,
        p.exported e.1 = some (if 2 ≤ e.2 ∧ e.2 ≤ 6
          then (8 * (p.get e.2 % 4294967296)) % 4294967296 else p.get e.2)) ∧
      (∀ v : Int, 0 < v → v < 536870912 →
        ((bankOf v).AsJSON_fields.filter (fun f => f.2 == 8 * v)).length = 5 ∧
          ((bankOf v).AsJSON_fields.filter (fun f => f.2 == v)).length = 10) := by
  refine ⟨by decide, by decide, ?_, ?_⟩
  · intro e he p
    have hv := exported_values p
    simp only [exportSchema, List.mem_cons, List.mem_singleton, List.not_mem_nil, or_false] at he
    rcases he with h | h | h | h | h | h | h | h | h | h | h | h | h | h | h <;> subst h <;>
      simp [hv, scaled_eq]
  · intro v h0 h1
    rw [bankOf_fields v (le_of_lt h0) h1]
    have h8 : (8 * v == v) = false := by
      rw [beq_eq_false_iff_ne]; omega
    have h8b : (v == 8 * v) = false := by
      rw [beq_eq_false_iff_ne]; omega
    simp [List.filter_cons, h8, h8b]

/-- C17, amended, at a concrete bank: with every counter at `3`, five fields
export `24` and ten export `3`. -/
theorem AsJSON_five_scaled_at_three :
    ((bankOf 3).AsJSON_fields.filter (fun f => f.2 == 8 * 3)).length = 5 ∧
      ((bankOf 3).AsJSON_fields.filter (fun f => f.2 == 3)).length = 10 :=
  AsJSON_five_scaled.2.2.2 3 (by decide) (by decide)

/-- C17 as stated fails: with every counter at `1`, the export has five fields
at `8` and ten at `1`, so five counters are scaled and ten are raw, not four
and eleven. -/
theorem AsJSON_not_four_scaled :
    ((bankOf 1).AsJSON_fields.filter (fun f => f.2 == 8)).length = 5 ∧
      ((bankOf 1).AsJSON_fields.filter (fun f => f.2 == 1)).length = 10 ∧
      ¬ (((bankOf 1).AsJSON_fields.filter (fun f => f.2 == 8)).length = 4) ∧
      ¬ (((bankOf 1).AsJSON_fields.filter (fun f => f.2 == 1)).length = 11) := by
  decide

theorem Run_updates (dpi : DPIModuleNode σ) (a c wc : Nat) (w : World σ) :
    updatesSince w (Device.Run dpi a c wc w).2
      = List.zip (List.range 15) (readbackVals dpi (Device.polled dpi a c wc w).sim) := by
  apply updatesSince_of_updates
  rw [Run_world, readback_updates, (polled_prof dpi a c wc w).2]

/-- C19: for every `Run` and every backend, the indices passed to
`Profiler::Update` are `0, 1, ..., 14`, each once and in ascending order, so
every one is below `num_counters_ = 15`; every register offset the run reads
or writes is at most `0x58` and a multiple of 4. -/
theorem Run_indices_in_range (dpi : DPIModuleNode σ)
    (insn_phy_addr insn_count wait_cycles : Nat) (w : World σ) :
    (updatesSince w (Device.Run dpi insn_phy_addr insn_count wait_cycles w).2).map Prod.fst
        = List.range 15 ∧
      (∀ u ∈ updatesSince w (Device.Run dpi insn_phy_addr insn_count wait_cycles w).2,
        u.1 < Profiler.num_counters_) ∧
      (∀ a ∈ readsOf (opsSince w (Device.Run dpi insn_phy_addr insn_count wait_cycles w).2),
        a ≤ 0x58 ∧ a % 4 = 0) ∧
      (∀ p ∈ writesOf (opsSince w (Device.Run dpi insn_phy_addr insn_count wait_cycles w).2),
        p.1 ≤ 0x58 ∧ p.1 % 4 = 0) := by
  have hu : (updatesSince w (Device.Run dpi insn_phy_addr insn_count wait_cycles w).2).map
      Prod.fst = List.range 15 := by
    rw [Run_updates, List.map_fst_zip]
    rw [readbackVals_length]; simp
  refine ⟨hu, ?_, ?_, ?_⟩
  · intro u hmem
    have : u.1 ∈ List.range 15 := by
      rw [← hu]; exact List.mem_map_of_mem _ hmem
    simpa [Profiler.num_counters_] using this
  · obtain ⟨m, _, hm⟩ := Run_ops dpi insn_phy_addr insn_count wait_cycles w
    have hr : readsOf (opsSince w (Device.Run dpi insn_phy_addr insn_count wait_cycles w).2)
        = List.replicate m 0x00 ++ readbackAddrs := by
      rw [hm]
      simp [readsOf, launchCalls, readsOf_append, (pollOps_obs dpi _ m).1,
        (readbackOps_obs dpi _).1]
      rfl
    intro a ha
    rw [hr, List.mem_append] at ha
    rcases ha with ha | ha
    · have := List.eq_of_mem_replicate ha
      subst this; decide
    · revert a; decide
  · rw [Run_writes]
    simp

/-- C20: for every counter state, each of the five scaled numbers printed by
`AsJSON` (counters 2..6) is the unsigned 32-bit number `(8 * u) mod 2^32`,
with `u` the counter converted to `uint32_t` (itself for a non-negative `int`,
plus `2^32` for a negative one); it equals 8 times the raw counter if and
only if `0 ≤ raw < 2^29`; the ten other numbers are the `int` counters
themselves. -/
theorem AsJSON_wraps (p : Profiler) :
    (∀ e ∈ exportSchema.filter (fun e => decide (2 ≤ e.2 ∧ e.2 ≤ 6)),
        p.exported e.1 = some (((8 * toUInt32 (p.get e.2) % 4294967296 : Nat) : Int)) ∧
        (p.exported e.1 = some (8 * p.get e.2) ↔ 0 ≤ p.get e.2 ∧ p.get e.2 < 536870912)) ∧
      (∀ e ∈ exportSchema.filter (fun e => ! decide (2 ≤ e.2 ∧ e.2 ≤ 6)),
        p.exported e.1 = some (p.get e.2)) ∧
      (∀ c : Int, -2147483648 ≤ c → c < 2147483648 →
        (toUInt32 c : Int) = if 0 ≤ c then c else c + 4294967296) := by
  have hv := exported_values p
  have hs : ∀ idx, p.scaled idx = (((8 * toUInt32 (p.get idx) % 4294967296 : Nat)) : Int) := by
    intro idx; rw [Profiler.scaled, Nat.mul_comm]
  refine ⟨?_, ?_, ?_⟩
  · intro e he
    have hf : exportSchema.filter (fun e => decide (2 ≤ e.2 ∧ e.2 ≤ 6))
        = [("acc_load_nbytes", 2), ("inp_load_nbytes", 3), ("wgt_load_nbytes", 4),
            ("uop_load_nbytes", 5), ("out_store_nbytes", 6)] := by decide
    rw [hf] at he
    simp only [List.mem_cons, List.mem_singleton, List.not_mem_nil, or_false] at he
    rcases he with h | h | h | h | h <;> subst h
    · exact ⟨by rw [hv.2.2.1, hs], by rw [hv.2.2.1, Option.some_inj]; exact scaled_exact_iff p 2⟩
    · exact ⟨by rw [hv.2.2.2.1, hs],
        by rw [hv.2.2.2.1, Option.some_inj]; exact scaled_exact_iff p 3⟩
    · exact ⟨by rw [hv.2.2.2.2.1, hs],
        by rw [hv.2.2.2.2.1, Option.some_inj]; exact scaled_exact_iff p 4⟩
    · exact ⟨by rw [hv.2.2.2.2.2.1, hs],
        by rw [hv.2.2.2.2.2.1, Option.some_inj]; exact scaled_exact_iff p 5⟩
    · exact ⟨by rw [hv.2.2.2.2.2.2.1, hs],
        by rw [hv.2.2.2.2.2.2.1, Option.some_inj]; exact scaled_exact_iff p 6⟩
  · intro e he
    have hf : exportSchema.filter (fun e => ! decide (2 ≤ e.2 ∧ e.2 ≤ 6))
        = [("cycle_counter", 0), ("acc_wr_counter", 1), ("alu_counter", 7), ("gemm_counter", 8),
            ("idle_ld_cycles", 9), ("idle_st_cycles", 10), ("idle_cp_cycles", 11),
            ("stall_ld_cycles", 12), ("stall_st_cycles", 13), ("stall_cp_cycles", 14)] := by
      decide
    rw [hf] at he
    simp only [List.mem_cons, List.mem_singleton, List.not_mem_nil, or_false] at he
    rcases he with h | h | h | h | h | h | h | h | h | h <;> subst h <;> simp [hv]
  · intro c hlo hhi
    unfold toUInt32
    rw [Int.toNat_of_nonneg (Int.emod_nonneg _ (by norm_num))]
    split <;> omega

theorem pollResp_shift (dpi : DPIModuleNode σ) (s : σ) (j : Nat) :
    pollResp dpi (dpi.ReadReg 0x00 s).2 j = pollResp dpi s (j + 1) := by
  simp [pollResp, readEnd, List.replicate_succ]

/-- Two polling loops whose backends give the same responses make the same
number of polls and the same calls. -/
theorem waitLoop_agree {σ1 σ2 : Type} (dpi1 : DPIModuleNode σ1) (dpi2 : DPIModuleNode σ2)
    (n : Nat) (w1 : World σ1) (w2 : World σ2)
    (h : ∀ j, j < n → pollResp dpi1 w1.sim j = pollResp dpi2 w2.sim j) :
    ∃ m, m ≤ n ∧
      (Device.waitLoop dpi1 n w1).trace = w1.trace ++ pollOps dpi1 w1.sim m ∧
      (Device.waitLoop dpi2 n w2).trace = w2.trace ++ pollOps dpi2 w2.sim m ∧
      (Device.waitLoop dpi1 n w1).sim = readEnd dpi1 (List.replicate m 0x00) w1.sim ∧
      (Device.waitLoop dpi2 n w2).sim = readEnd dpi2 (List.replicate m 0x00) w2.sim ∧
      pollOps dpi1 w1.sim m = pollOps dpi2 w2.sim m := by
  induction n generalizing w1 w2 with
  | zero => exact ⟨0, le_refl _, by simp [Device.waitLoop, pollOps, readEnd]⟩
  | succ n ih =>
    have h0 : (dpi1.ReadReg 0 w1.sim).1 % 4294967296 = (dpi2.ReadReg 0 w2.sim).1 % 4294967296 := by
      simpa [pollResp, readEnd] using h 0 (by omega)
    by_cases hb : (dpi1.ReadReg 0 w1.sim).1 % 4294967296 &&& 2 = 2
    · have hb2 : (dpi2.ReadReg 0 w2.sim).1 % 4294967296 &&& 2 = 2 := by rw [← h0]; exact hb
      refine ⟨1, by omega, ?_, ?_, ?_, ?_, ?_⟩
      · rw [pollOps_succ]; simp [Device.waitLoop, callReadReg, hb, pollOps]
      · rw [pollOps_succ]; simp [Device.waitLoop, callReadReg, hb2, pollOps]
      · simp [Device.waitLoop, callReadReg, hb, readEnd]
      · simp [Device.waitLoop, callReadReg, hb2, readEnd]
      · rw [pollOps_succ, pollOps_succ, h0]; simp [pollOps]
    · have hb2 : ¬ ((dpi2.ReadReg 0 w2.sim).1 % 4294967296 &&& 2 = 2) := by rw [← h0]; exact hb
      have hs : ∀ j, j < n → pollResp dpi1 (callReadReg dpi1 0x00 w1).2.sim j
          = pollResp dpi2 (callReadReg dpi2 0x00 w2).2.sim j := by
        intro j hj
        have := h (j + 1) (by omega)
        simpa [callReadReg, pollResp_shift] using this
      obtain ⟨m, hm, t1, t2, s1, s2, hp⟩ :=
        ih (callReadReg dpi1 0x00 w1).2 (callReadReg dpi2 0x00 w2).2 hs
      refine ⟨m + 1, by omega, ?_, ?_, ?_, ?_, ?_⟩
      · rw [pollOps_succ]
        simp only [Device.waitLoop]
        rw [if_neg (by simpa [callReadReg] using hb), t1]
        simp [callReadReg]
      · rw [pollOps_succ]
        simp only [Device.waitLoop]
        rw [if_neg (by simpa [callReadReg] using hb2), t2]
        simp [callReadReg]
      · simp only [Device.waitLoop]
        rw [if_neg (by simpa [callReadReg] using hb), s1]
        simp [callReadReg, readEnd, List.replicate_succ]
      · simp only [Device.waitLoop]
        rw [if_neg (by simpa [callReadReg] using hb2), s2]
        simp [callReadReg, readEnd, List.replicate_succ]
      · rw [pollOps_succ, pollOps_succ, h0]
        have hp2 : pollOps dpi1 (dpi1.ReadReg 0 w1.sim).2 m
            = pollOps dpi2 (dpi2.ReadReg 0 w2.sim).2 m := by
          simpa [callReadReg] using hp
        rw [hp2]

/-- C18: two `Run` calls with the same `insn_phy_addr`, `insn_count` and
`wait_cycles`, on any two backends, banks and histories, whose backends give
the same register responses (to the polls and to the readback that follows
them), make the same calls on the handle, in the same order and with the
same values, make the same `Update` calls, and so add the same values
`vals` to their counters; the register writes of a run are the same for
every `wait_cycles`, backend and world. -/
theorem Run_deterministic {σ1 σ2 : Type} (dpi1 : DPIModuleNode σ1) (dpi2 : DPIModuleNode σ2)
    (insn_phy_addr insn_count wait_cycles : Nat) (w1 : World σ1) (w2 : World σ2)
    (hpoll : ∀ j, j < wait_cycles →
      pollResp dpi1 (Device.launched dpi1 insn_phy_addr insn_count wait_cycles w1).sim j
        = pollResp dpi2 (Device.launched dpi2 insn_phy_addr insn_count wait_cycles w2).sim j)
    (hread : ∀ m, m ≤ wait_cycles →
      readSeq dpi1 readbackAddrs (readEnd dpi1 (List.replicate m 0x00)
          (Device.launched dpi1 insn_phy_addr insn_count wait_cycles w1).sim)
        = readSeq dpi2 readbackAddrs (readEnd dpi2 (List.replicate m 0x00)
          (Device.launched dpi2 insn_phy_addr insn_count wait_cycles w2).sim)) :
    opsSince w1 (Device.Run dpi1 insn_phy_addr insn_count wait_cycles w1).2
        = opsSince w2 (Device.Run dpi2 insn_phy_addr insn_count wait_cycles w2).2 ∧
      updatesSince w1 (Device.Run dpi1 insn_phy_addr insn_count wait_cycles w1).2
        = updatesSince w2 (Device.Run dpi2 insn_phy_addr insn_count wait_cycles w2).2 ∧
      (∃ vals : List Nat, ∀ i : Fin 15,
        (Device.Run dpi1 insn_phy_addr insn_count wait_cycles w1).2.prof.get i.val
            = toInt32 ((toUInt32 (w1.prof.get i.val) + vals.getD i.val 0) % 4294967296) ∧
          (Device.Run dpi2 insn_phy_addr insn_count wait_cycles w2).2.prof.get i.val
            = toInt32 ((toUInt32 (w2.prof.get i.val) + vals.getD i.val 0) % 4294967296)) ∧
      (∀ (wait_cycles3 : Nat) (σ3 : Type) (dpi3 : DPIModuleNode σ3) (w3 : World σ3),
        writesOf (opsSince w3 (Device.Run dpi3 insn_phy_addr insn_count wait_cycles3 w3).2)
          = writesOf (opsSince w1
              (Device.Run dpi1 insn_phy_addr insn_count wait_cycles w1).2)) := by
  obtain ⟨m, hm, t1, t2, s1, s2, hp⟩ := waitLoop_agree dpi1 dpi2 wait_cycles
    (Device.launched dpi1 insn_phy_addr insn_count wait_cycles w1)
    (Device.launched dpi2 insn_phy_addr insn_count wait_cycles w2) hpoll
  have hv : readbackVals dpi1 (Device.polled dpi1 insn_phy_addr insn_count wait_cycles w1).sim
      = readbackVals dpi2 (Device.polled dpi2 insn_phy_addr insn_count wait_cycles w2).sim := by
    rw [Device.polled, Device.polled, s1, s2]
    exact hread m hm
  have o1 : opsSince w1 (Device.Run dpi1 insn_phy_addr insn_count wait_cycles w1).2
      = Op.SimResume :: (launchCalls insn_phy_addr insn_count
          ++ pollOps dpi1 (Device.launched dpi1 insn_phy_addr insn_count wait_cycles w1).sim m
          ++ List.zipWith Op.ReadReg readbackAddrs
              (readbackVals dpi1
                (Device.polled dpi1 insn_phy_addr insn_count wait_cycles w1).sim)
          ++ [Op.SimWait]) := by
    apply opsSince_of_trace
    rw [Run_world, readback_trace, Device.polled, t1, launched_trace]
    simp [launchCalls]
  have o2 : opsSince w2 (Device.Run dpi2 insn_phy_addr insn_count wait_cycles w2).2
      = Op.SimResume :: (launchCalls insn_phy_addr insn_count
          ++ pollOps dpi2 (Device.launched dpi2 insn_phy_addr insn_count wait_cycles w2).sim m
          ++ List.zipWith Op.ReadReg readbackAddrs
              (readbackVals dpi2
                (Device.polled dpi2 insn_phy_addr insn_count wait_cycles w2).sim)
          ++ [Op.SimWait]) := by
    apply opsSince_of_trace
    rw [Run_world, readback_trace, Device.polled, t2, launched_trace]
    simp [launchCalls]
  refine ⟨?_, ?_, ?_, ?_⟩
  · rw [o1, o2, hp, hv]
  · rw [Run_updates, Run_updates, hv]
  · refine ⟨readbackVals dpi2
      (Device.polled dpi2 insn_phy_addr insn_count wait_cycles w2).sim, fun i => ⟨?_, ?_⟩⟩
    · rw [Run_counters, hv]
    · rw [Run_counters]
  · intro wait_cycles3 σ3 dpi3 w3
    rw [Run_writes, Run_writes]

/-- C18 at two concrete runs: a fresh world on a backend that finishes at its
third read, and a world with a history and another bank on a backend whose
next third read finishes; both runs make the same calls. -/
theorem Run_deterministic_two_worlds :
    opsSince (World.start 0) (Device.Run (readyAt 2) 4096 4 10 (World.start 0)).2
        = opsSince (World.later 3) (Device.Run (readyAt 5) 4096 4 10 (World.later 3)).2 ∧
      updatesSince (World.start 0) (Device.Run (readyAt 2) 4096 4 10 (World.start 0)).2
        = updatesSince (World.later 3) (Device.Run (readyAt 5) 4096 4 10 (World.later 3)).2 :=
  ⟨(Run_deterministic (readyAt 2) (readyAt 5) 4096 4 10 (World.start 0) (World.later 3)
      (by decide) (by decide)).1,
    (Run_deterministic (readyAt 2) (readyAt 5) 4096 4 10 (World.start 0) (World.later 3)
      (by decide) (by decide)).2.1⟩

end tsim
end vta
